import Mathlib

/-!
# The scandal CAN driver for the LPC11C14

A shallow embedding of `src/arch/lpc11c14/drivers/can.c`: the software
transmit queue (`enqueue_message`, `send_queued_messages`), the transmit
allocator (`buffer_free`, `CAN_Send`), the receive path
(`CAN_MessageProcess`, `CAN_IRQHandler`, `CAN_decode_packet`, `can_get_msg`),
filter registration (`CAN_set_up_filter`, `can_register_id`) and the scandal
wrappers (`can_send_msg`, `can_poll`).

Conventions.
* C globals are the fields of `Driver`; a C function is a function from the
  state before the call to its return value and the state after it.
* C arrays are functions from the index; `Function.update` is an assignment
  to one element.
* `u08` and `uint32_t` values are natural numbers; a store that can leave the
  range is reduced `% 256` or `% 2 ^ 32`.
* The controller registers (`LPC_CAN->...`) are the fields of
  `LPC_CAN_TypeDef`.  What the controller does on its own is not in the
  source and is kept apart from the driver: see `LPC_CAN_TypeDef`.
* The conditional sections `CAN_DEBUG`, `CAN_UART_DEBUG` and
  `ENABLE_RX_QUEUE` are taken as switched off.
-/

namespace Scandal

/-! ## Constants -/

/-- First line of can.c after the includes: `#define RECV_BUFF_DIVIDE 20`. -/
def RECV_BUFF_DIVIDE : Nat := 20

/-- Number of message objects of the controller (`arch/can.h`, 0x20). -/
def MSG_OBJ_MAX : Nat := 32

/-- Payload size of a frame (`scandal/can.h`). -/
def CAN_MSG_MAXSIZE : Nat := 8

/-- Value the driver stores in a ready flag. -/
def TRUE : Nat := 1

/-! Bits of the interface command mask register. -/

def DATAB : Nat := 0x01
def DATAA : Nat := 0x02
def TREQ : Nat := 0x04
def INTPND : Nat := 0x08
def CTRL : Nat := 0x10
def ARB : Nat := 0x20
def MASK : Nat := 0x40
def WR : Nat := 0x80
def RD : Nat := 0x00

/-! Bits of the interface mask 2 and arbitration 2 registers. -/

def MASK_MXTD : Nat := 0x8000
def MASK_MDIR : Nat := 0x4000
def ID_MVAL : Nat := 0x8000
def ID_MTD : Nat := 0x4000
def ID_DIR : Nat := 0x2000

/-! Bits of the interface message control register. -/

def UMSK : Nat := 0x1000
def RXIE : Nat := 0x0400
def TXRQ : Nat := 0x0100
def EOB : Nat := 0x0080
def DLC_MAX : Nat := 8
def DLC_MASK : Nat := 0x0F

def ID_STD_MASK : Nat := 0x07FF
def ID_EXT_MASK : Nat := 0x1FFFFFFF

/-! Bits of the status, control, interrupt and command request registers. -/

def STAT_LEC : Nat := 0x07
def STAT_RXOK : Nat := 0x10
def STAT_EWARN : Nat := 0x40
def STAT_BOFF : Nat := 0x80
def CTRL_INIT : Nat := 0x01
def CTRL_IE : Nat := 0x02
def CTRL_SIE : Nat := 0x04
def CTRL_EIE : Nat := 0x08
def CAN_STATUS_INTERRUPT : Nat := 0x8000
def IFCREQ_BUSY : Nat := 0x8000

/-- The C operator `~` on a `uint32_t`. -/
def not32 (x : Nat) : Nat := 0xFFFFFFFF - x % 2 ^ 32

/-- Error codes of `scandal/error.h`.  Their numbers are not among the
sources; the driver only compares them with each other. -/
inductive Err where
  | NO_ERR
  | NO_MSG_ERR
  | BUF_FULL_ERR
  deriving DecidableEq

/-- Constants of the project and scandal headers that can.c uses and that are
not among the sources. -/
structure Config where
  CAN_TX_BUFFER_SIZE : Nat
  CAN_TX_BUFFER_MASK : Nat
  CAN_EXT_MSG : Nat
  CAN_STD_MSG : Nat

/-! ## Data -/

/-- The frame type `can_msg` of scandal: `id`, `data[CAN_MSG_MAXSIZE]`,
`length`, and the tag `ext` that can.c reads and writes. -/
structure can_msg where
  id : Nat
  data : Nat → Nat
  length : Nat
  ext : Nat

/-- An entry of the shadow buffer `CAN_rxbuf`: seven 32-bit words in the
order in which `CAN_MessageProcess` walks over them. -/
structure message_object where
  ext : Nat
  id : Nat
  dlc : Nat
  data : Nat → Nat

/-- Contents of one message object in the controller's message RAM, as an
interface register set shows them. -/
structure MsgRam where
  ARB1 : Nat
  ARB2 : Nat
  MCTRL : Nat
  DA1 : Nat
  DA2 : Nat
  DB1 : Nat
  DB2 : Nat

/-- One transfer request written to `IF1_CMDREQ`: the message number and the
IF1 registers at that moment. -/
structure Xfer where
  msg_num : Nat
  CMDMSK : Nat
  MSK1 : Nat
  MSK2 : Nat
  ARB1 : Nat
  ARB2 : Nat
  MCTRL : Nat
  DA1 : Nat
  DA2 : Nat
  DB1 : Nat
  DB2 : Nat

/-- The controller as the driver sees it.

The register fields hold what a read returns.  Three fields describe the
controller rather than a register:
* `IF1_busy`, `IF2_busy`: how many more reads of `IFx_CMDREQ` return the BUSY
  bit set; `xfer_latency` is the value they take when a request is written,
* `msg_ram n`: the contents of message object `n`, which a read request on
  IF2 loads into the IF2 registers,
* `if1_xfers`: the requests written to `IF1_CMDREQ` so far, oldest first.

Everything else the controller does (setting and clearing TXREQ bits,
raising interrupts, receiving frames) happens between driver steps and is an
arbitrary change of this record. -/
structure LPC_CAN_TypeDef where
  CNTL : Nat
  STAT : Nat
  INT : Nat
  TXREQ1 : Nat
  TXREQ2 : Nat
  IF1_CMDREQ : Nat
  IF1_CMDMSK : Nat
  IF1_MSK1 : Nat
  IF1_MSK2 : Nat
  IF1_ARB1 : Nat
  IF1_ARB2 : Nat
  IF1_MCTRL : Nat
  IF1_DA1 : Nat
  IF1_DA2 : Nat
  IF1_DB1 : Nat
  IF1_DB2 : Nat
  IF2_CMDREQ : Nat
  IF2_CMDMSK : Nat
  IF2_ARB1 : Nat
  IF2_ARB2 : Nat
  IF2_MCTRL : Nat
  IF2_DA1 : Nat
  IF2_DA2 : Nat
  IF2_DB1 : Nat
  IF2_DB2 : Nat
  IF1_busy : Nat
  IF2_busy : Nat
  xfer_latency : Nat
  msg_ram : Nat → MsgRam
  if1_xfers : List Xfer

/-- The globals of can.c together with the controller and the NVIC enable
bit of the CAN interrupt. -/
structure Driver where
  LPC_CAN : LPC_CAN_TypeDef
  irq_enabled : Bool
  recv_buf_used : Nat → Nat
  CAN_txbuf : Nat → can_msg
  tx_buf_start : Nat
  tx_num_msgs : Nat
  BOffCnt : Nat
  EWarnCnt : Nat
  EPassCnt : Nat
  CANRxDone : Nat → Nat
  CAN_rxbuf : Nat → message_object

/-! ## Access to the interface registers -/

/-- The loop `while ( LPC_CAN->IF1_CMDREQ & IFCREQ_BUSY );` with `n` reads
still returning BUSY. -/
def IF1_spin : Nat → LPC_CAN_TypeDef → LPC_CAN_TypeDef
  | 0, c => c
  | n + 1, c => IF1_spin n { c with IF1_busy := n }

/-- Busy-wait on IF1. -/
def IF1_wait (c : LPC_CAN_TypeDef) : LPC_CAN_TypeDef :=
  IF1_spin c.IF1_busy c

/-- The loop `while ( LPC_CAN->IF2_CMDREQ & IFCREQ_BUSY );` with `n` reads
still returning BUSY. -/
def IF2_spin : Nat → LPC_CAN_TypeDef → LPC_CAN_TypeDef
  | 0, c => c
  | n + 1, c => IF2_spin n { c with IF2_busy := n }

/-- Busy-wait on IF2. -/
def IF2_wait (c : LPC_CAN_TypeDef) : LPC_CAN_TypeDef :=
  IF2_spin c.IF2_busy c

/-- The assignment `LPC_CAN->IF1_CMDREQ = v`: the request is recorded and the
interface is busy for `xfer_latency` reads. -/
def write_IF1_CMDREQ (v : Nat) (c : LPC_CAN_TypeDef) : LPC_CAN_TypeDef :=
  { c with
    IF1_CMDREQ := v
    IF1_busy := c.xfer_latency
    if1_xfers := c.if1_xfers ++
      [{ msg_num := v, CMDMSK := c.IF1_CMDMSK, MSK1 := c.IF1_MSK1, MSK2 := c.IF1_MSK2,
         ARB1 := c.IF1_ARB1, ARB2 := c.IF1_ARB2, MCTRL := c.IF1_MCTRL,
         DA1 := c.IF1_DA1, DA2 := c.IF1_DA2, DB1 := c.IF1_DB1, DB2 := c.IF1_DB2 }] }

/-- The assignment `LPC_CAN->IF2_CMDREQ = v` with a read command mask: the
controller loads the IF2 registers from message object `v` and the interface
is busy for `xfer_latency` reads. -/
def write_IF2_CMDREQ (v : Nat) (c : LPC_CAN_TypeDef) : LPC_CAN_TypeDef :=
  { c with
    IF2_CMDREQ := v
    IF2_busy := c.xfer_latency
    IF2_ARB1 := (c.msg_ram v).ARB1
    IF2_ARB2 := (c.msg_ram v).ARB2
    IF2_MCTRL := (c.msg_ram v).MCTRL
    IF2_DA1 := (c.msg_ram v).DA1
    IF2_DA2 := (c.msg_ram v).DA2
    IF2_DB1 := (c.msg_ram v).DB1
    IF2_DB2 := (c.msg_ram v).DB2 }

/-! ## Transmit allocator -/

/-- The local `BufferStatus` of `buffer_free` (can.c 434): the pending bitmap
TXREQ2:TXREQ1, bit `k` belonging to message object `k + 1`. -/
def BufferStatus (c : LPC_CAN_TypeDef) : Nat :=
  (((c.TXREQ2 &&& 0x0000FFFF) <<< 16) ||| (c.TXREQ1 &&& 0x0000FFFF)) % 2 ^ 32

/-- The function `buffer_free` (can.c 433-438). -/
def buffer_free (c : LPC_CAN_TypeDef) (msg_num : Nat) : Bool :=
  (((BufferStatus c >>> (msg_num - 1)) % 256) &&& 0x01) == 0

/-- The call `memcpy(&w, data + off, sizeof(uint32_t))` on the little-endian
Cortex-M0. -/
def memcpy_u32 (data : Nat → Nat) (off : Nat) : Nat :=
  data off % 256 + (data (off + 1) % 256) * 2 ^ 8 + (data (off + 2) % 256) * 2 ^ 16
    + (data (off + 3) % 256) * 2 ^ 24

/-- Lines 468-489 of `CAN_Send`: identifier and mask registers. -/
def CAN_Send_arb (cfg : Config) (msg : can_msg) (c : LPC_CAN_TypeDef) : LPC_CAN_TypeDef :=
  if msg.ext = cfg.CAN_EXT_MSG then
    let tx_addr := ID_EXT_MASK &&& msg.id
    let c := { c with IF1_ARB1 := tx_addr &&& 0x0000FFFF }
    let c := { c with IF1_ARB2 := ID_MTD ||| ((tx_addr >>> 16) &&& 0x00001FFF) }
    let c := { c with IF1_MSK2 := MASK_MXTD ||| MASK_MDIR ||| (ID_EXT_MASK >>> 16) }
    { c with IF1_MSK1 := ID_EXT_MASK &&& 0x0000FFFF }
  else if msg.ext = cfg.CAN_STD_MSG then
    let tx_addr := msg.id &&& ID_STD_MASK
    let c := { c with IF1_ARB2 := (tx_addr <<< 2) &&& 0x00001FFF }
    let c := { c with IF1_ARB2 := c.IF1_ARB2 &&& not32 ID_MTD }
    let c := { c with IF1_MSK2 := MASK_MDIR ||| (ID_STD_MASK <<< 2) }
    { c with IF1_MSK1 := 0x0000 }
  else c

/-- Lines 466-512 of `CAN_Send`: the body of `if (buffer_free(i))`. -/
def CAN_Send_slot (cfg : Config) (msg : can_msg) (i : Nat) (c : LPC_CAN_TypeDef) :
    LPC_CAN_TypeDef :=
  let length := 8
  let can_data := memcpy_u32 msg.data 0
  let can_timestamp := memcpy_u32 msg.data 4
  let c := CAN_Send_arb cfg msg c
  let c := { c with IF1_DA1 := can_data &&& 0x0000FFFF }
  let c := { c with IF1_DA2 := (can_data &&& 0xFFFF0000) >>> 16 }
  let c := { c with IF1_DB1 := can_timestamp &&& 0x0000FFFF }
  let c := { c with IF1_DB2 := (can_timestamp &&& 0xFFFF0000) >>> 16 }
  let c := { c with IF1_ARB2 := c.IF1_ARB2 ||| (ID_DIR ||| ID_MVAL) }
  let c := { c with IF1_MCTRL := UMSK ||| TXRQ ||| EOB ||| (length &&& DLC_MASK) }
  let c := { c with IF1_CMDMSK := WR ||| MASK ||| ARB ||| CTRL ||| DATAA ||| DATAB }
  let c := write_IF1_CMDREQ i c
  IF1_wait c

/-- The loop of `CAN_Send` with `n` values of `i` still to try, the next one
being `i`. -/
def CAN_Send_loop (cfg : Config) (msg : can_msg) :
    Nat → Nat → LPC_CAN_TypeDef → Err × LPC_CAN_TypeDef
  | 0, _, c => (Err.NO_MSG_ERR, c)
  | n + 1, i, c =>
    if buffer_free c i then (Err.NO_ERR, CAN_Send_slot cfg msg i c)
    else CAN_Send_loop cfg msg n (i + 1) c

/-- The function `CAN_Send` (can.c 451-517):
`for(i = RECV_BUFF_DIVIDE+1; i < MSG_OBJ_MAX; i++)`. -/
def CAN_Send (cfg : Config) (_Pri : Nat) (msg : can_msg) (c : LPC_CAN_TypeDef) :
    Err × LPC_CAN_TypeDef :=
  CAN_Send_loop cfg msg (MSG_OBJ_MAX - (RECV_BUFF_DIVIDE + 1)) (RECV_BUFF_DIVIDE + 1) c

/-! ## Software transmit queue -/

/-- The loop `for (i = 0; i < n; i++) dst[i] = src[i];`. -/
def copy_bytes (src : Nat → Nat) : Nat → (Nat → Nat) → (Nat → Nat)
  | 0, dst => dst
  | n + 1, dst => Function.update (copy_bytes src n dst) n (src n)

/-- The function `enqueue_message` (can.c 102-121). -/
def enqueue_message (cfg : Config) (msg : can_msg) (s : Driver) : Err × Driver :=
  if s.tx_num_msgs ≥ cfg.CAN_TX_BUFFER_SIZE then (Err.BUF_FULL_ERR, s)
  else
    let pos := ((s.tx_buf_start + s.tx_num_msgs) &&& cfg.CAN_TX_BUFFER_MASK) % 256
    let e := s.CAN_txbuf pos
    let e := { e with id := msg.id }
    let e := { e with data := copy_bytes msg.data 8 e.data }
    let e := { e with length := msg.length }
    (Err.NO_ERR,
      { s with CAN_txbuf := Function.update s.CAN_txbuf pos e
               tx_num_msgs := (s.tx_num_msgs + 1) % 256 })

/-- The function `send_queued_messages` (can.c 134-151). -/
def send_queued_messages (cfg : Config) (s : Driver) : Err × Driver :=
  if s.tx_num_msgs ≤ 0 then (Err.NO_MSG_ERR, s)
  else
    let msg := s.CAN_txbuf s.tx_buf_start
    let r := CAN_Send cfg 0 msg s.LPC_CAN
    let s := { s with LPC_CAN := r.2 }
    if r.1 = Err.NO_ERR then
      (r.1, { s with tx_buf_start := ((s.tx_buf_start + 1) &&& cfg.CAN_TX_BUFFER_MASK) % 256
                     tx_num_msgs := (s.tx_num_msgs + 255) % 256 })
    else (r.1, s)

/-- The function `can_send_msg` (can.c 588-605). -/
def can_send_msg (cfg : Config) (msg : can_msg) (priority : Nat) (s : Driver) : Err × Driver :=
  let s :=
    if s.LPC_CAN.STAT &&& 0x80 ≠ 0 then
      { s with LPC_CAN := { s.LPC_CAN with CNTL := s.LPC_CAN.CNTL &&& not32 0x1 } }
    else s
  let r := CAN_Send cfg priority msg s.LPC_CAN
  let s := { s with LPC_CAN := r.2 }
  if r.1 = Err.NO_MSG_ERR then enqueue_message cfg msg s
  else (Err.NO_ERR, s)

/-- The function `can_poll` (can.c 674-676). -/
def can_poll (cfg : Config) (s : Driver) : Driver :=
  (send_queued_messages cfg s).2

/-! ## Receive path -/

/-- The function `CAN_decode_packet` (can.c 163-221); the caller's frame is
passed in and handed back. -/
def CAN_decode_packet (msg_num : Nat) (msg : can_msg) (s : Driver) : can_msg × Driver :=
  let b := s.CAN_rxbuf msg_num
  let msg := { msg with data := Function.update msg.data 0 (b.data 0 &&& 0x000000FF) }
  let msg := { msg with data := Function.update msg.data 1 ((b.data 0 >>> 8) &&& 0x000000FF) }
  let msg := { msg with data := Function.update msg.data 2 (b.data 1 &&& 0x000000FF) }
  let msg := { msg with data := Function.update msg.data 3 ((b.data 1 >>> 8) &&& 0x000000FF) }
  let msg := { msg with data := Function.update msg.data 4 (b.data 2 &&& 0x000000FF) }
  let msg := { msg with data := Function.update msg.data 5 ((b.data 2 >>> 8) &&& 0x000000FF) }
  let msg := { msg with data := Function.update msg.data 6 (b.data 3 &&& 0x000000FF) }
  let msg := { msg with data := Function.update msg.data 7 ((b.data 3 >>> 8) &&& 0x000000FF) }
  let msg := { msg with id := b.id }
  let msg := { msg with length := CAN_MSG_MAXSIZE }
  let msg := { msg with ext := b.ext }
  (msg, { s with CANRxDone := Function.update s.CANRxDone msg_num 0 })

/-- The function `CAN_set_up_filter` (can.c 224-268). -/
def CAN_set_up_filter (cfg : Config) (msg_id filter_mask filter_addr ext : Nat)
    (c : LPC_CAN_TypeDef) : LPC_CAN_TypeDef :=
  let c := { c with IF1_CMDMSK := WR ||| MASK ||| ARB ||| CTRL ||| DATAA ||| DATAB }
  let c :=
    if ext = cfg.CAN_EXT_MSG then
      let c := { c with IF1_MSK1 := filter_mask &&& 0xFFFF }
      let c := { c with IF1_MSK2 := MASK_MXTD ||| (filter_mask >>> 16) }
      let c := { c with IF1_ARB1 := filter_addr &&& 0xFFFF }
      { c with IF1_ARB2 := ID_MTD ||| ID_MVAL ||| (filter_addr >>> 16) }
    else
      let c := { c with IF1_MSK2 := (filter_mask <<< 2) % 2 ^ 32 }
      { c with IF1_ARB2 := ID_MVAL ||| ((filter_addr <<< 2) % 2 ^ 32) }
  let c := { c with IF1_ARB2 := c.IF1_ARB2 &&& not32 ID_DIR }
  let c := { c with IF1_MCTRL := UMSK ||| RXIE ||| EOB ||| DLC_MAX }
  let c := { c with IF1_DA1 := 0x0000 }
  let c := { c with IF1_DA2 := 0x0000 }
  let c := { c with IF1_DB1 := 0x0000 }
  let c := { c with IF1_DB2 := 0x0000 }
  let c := write_IF1_CMDREQ (msg_id + 1) c
  IF1_wait c

/-- The function `CAN_MessageProcess` (can.c 271-307).  The seven stores
through `p_add` fill the shadow entry `CAN_rxbuf[MsgNo]` word by word. -/
def CAN_MessageProcess (cfg : Config) (MsgNo : Nat) (s : Driver) : Driver :=
  let c := IF2_wait s.LPC_CAN
  let c := { c with IF2_CMDMSK := RD ||| MASK ||| ARB ||| CTRL ||| INTPND ||| TREQ ||| DATAA ||| DATAB }
  let c := write_IF2_CMDREQ (MsgNo + 1) c
  let c := IF2_wait c
  let b := s.CAN_rxbuf MsgNo
  let r : message_object × Nat :=
    if c.IF2_ARB2 &&& ID_MTD ≠ 0 then
      ({ b with ext := cfg.CAN_EXT_MSG }, (c.IF2_ARB1 ||| ((c.IF2_ARB2 &&& 0x5FFF) <<< 16)) % 2 ^ 32)
    else
      ({ b with ext := cfg.CAN_STD_MSG }, (c.IF2_ARB2 &&& 0x1FFF) >>> 2)
  let b := r.1
  let MsgID := r.2
  let b := { b with id := MsgID }
  let b := { b with dlc := c.IF2_MCTRL &&& 0x000F }
  let b := { b with data := Function.update b.data 0 c.IF2_DA1 }
  let b := { b with data := Function.update b.data 1 c.IF2_DA2 }
  let b := { b with data := Function.update b.data 2 c.IF2_DB1 }
  let b := { b with data := Function.update b.data 3 c.IF2_DB2 }
  { s with LPC_CAN := c, CAN_rxbuf := Function.update s.CAN_rxbuf MsgNo b }

/-- One pass through the body of the `while` loop of `CAN_IRQHandler`
(can.c 329-360), entered with `can_int = LPC_CAN->INT` non-zero.  The Boolean
is true when the pass ended in a `return`. -/
def CAN_IRQHandler_body (cfg : Config) (s : Driver) : Driver × Bool :=
  let can_int := s.LPC_CAN.INT
  if can_int &&& CAN_STATUS_INTERRUPT ≠ 0 then
    let canstat := s.LPC_CAN.STAT
    if canstat &&& STAT_EWARN ≠ 0 then
      ({ s with EWarnCnt := (s.EWarnCnt + 1) % 2 ^ 32 }, true)
    else if canstat &&& STAT_BOFF ≠ 0 then
      let s := { s with BOffCnt := (s.BOffCnt + 1) % 2 ^ 32 }
      ({ s with LPC_CAN := { s.LPC_CAN with CNTL := s.LPC_CAN.CNTL &&& not32 0x1 } }, true)
    else (s, false)
  else
    let canstat := s.LPC_CAN.STAT
    if canstat &&& STAT_LEC = 0 then
      let msg_no := can_int &&& 0x7FFF
      if msg_no ≥ 0x01 ∧ msg_no ≤ 0x20 then
        let s := { s with LPC_CAN := { s.LPC_CAN with STAT := s.LPC_CAN.STAT &&& not32 STAT_RXOK } }
        let s := CAN_MessageProcess cfg (msg_no - 1) s
        ({ s with CANRxDone := Function.update s.CANRxDone (msg_no - 1) TRUE }, false)
      else (s, false)
    else
      ({ s with LPC_CAN := { s.LPC_CAN with STAT := 0 } }, false)

/-- The function `CAN_IRQHandler` (can.c 323-363).  After a pass that does
not return, the controller updates its registers before `INT` is read again:
`hw` lists these updates in order, and once the list is used up the
controller has no interrupt left to report, so that `INT` reads 0 and the
loop ends. -/
def CAN_IRQHandler (cfg : Config) :
    List (LPC_CAN_TypeDef → LPC_CAN_TypeDef) → Driver → Driver
  | hw, s =>
    if s.LPC_CAN.INT = 0 then s
    else
      let r := CAN_IRQHandler_body cfg s
      if r.2 then r.1
      else
        match hw with
        | [] => { r.1 with LPC_CAN := { r.1.LPC_CAN with INT := 0 } }
        | f :: rest => CAN_IRQHandler cfg rest { r.1 with LPC_CAN := f r.1.LPC_CAN }

/-- The loop of `can_get_msg` with `n` indices still to try, the next one
being `i`. -/
def can_get_msg_loop (msg : can_msg) : Nat → Nat → Driver → Err × can_msg × Driver
  | 0, _, s => (Err.NO_MSG_ERR, msg, s)
  | n + 1, i, s =>
    if s.CANRxDone i = TRUE then
      let r := CAN_decode_packet i msg s
      (Err.NO_ERR, r.1, r.2)
    else can_get_msg_loop msg n (i + 1) s

/-- The function `can_get_msg` (can.c 566-576); the caller's frame is passed
in and handed back. -/
def can_get_msg (msg : can_msg) (s : Driver) : Err × can_msg × Driver :=
  can_get_msg_loop msg MSG_OBJ_MAX 0 s

/-! ## Filter registration -/

/-- The statements `NVIC_EnableIRQ(CAN_IRQn); LPC_CAN->CNTL |= (CTRL_IE|CTRL_SIE|CTRL_EIE);`. -/
def irq_on (s : Driver) : Driver :=
  let s := { s with irq_enabled := true }
  { s with LPC_CAN := { s.LPC_CAN with CNTL := s.LPC_CAN.CNTL ||| (CTRL_IE ||| CTRL_SIE ||| CTRL_EIE) } }

/-- The statements `NVIC_DisableIRQ(CAN_IRQn); LPC_CAN->CNTL &= ~(CTRL_IE|CTRL_SIE|CTRL_EIE);`. -/
def irq_off (s : Driver) : Driver :=
  let s := { s with irq_enabled := false }
  { s with LPC_CAN := { s.LPC_CAN with CNTL := s.LPC_CAN.CNTL &&& not32 (CTRL_IE ||| CTRL_SIE ||| CTRL_EIE) } }

/-- The loop of `can_register_id` and the statements after it, with `n`
indices still to try, the next one being `i`. -/
def can_register_id_loop (cfg : Config) (mask data ext : Nat) : Nat → Nat → Driver → Err × Driver
  | 0, _, s => (Err.NO_MSG_ERR, irq_on s)
  | n + 1, i, s =>
    if s.recv_buf_used i = 0 then
      let s := { s with LPC_CAN := CAN_set_up_filter cfg (i + 1) mask data ext s.LPC_CAN }
      let s := { s with recv_buf_used := Function.update s.recv_buf_used i 1 }
      (Err.NO_ERR, irq_on s)
    else can_register_id_loop cfg mask data ext n (i + 1) s

/-- The function `can_register_id` (can.c 626-646). -/
def can_register_id (cfg : Config) (mask data _priority ext : Nat) (s : Driver) : Err × Driver :=
  can_register_id_loop cfg mask data ext RECV_BUFF_DIVIDE 0 (irq_off s)

/-! ## Sequences of calls -/

/-- The state after `k` consecutive calls of `can_register_id`, call number
`j` (counted from 0) being made with the arguments `args j` = (mask, data,
priority, ext). -/
def can_register_id_n (cfg : Config) (args : Nat → Nat × Nat × Nat × Nat) : Nat → Driver → Driver
  | 0, s => s
  | k + 1, s =>
    (can_register_id cfg (args k).1 (args k).2.1 (args k).2.2.1 (args k).2.2.2
      (can_register_id_n cfg args k s)).2

/-- One step of a run of the transmit side: a call of `can_send_msg`, a call
of `can_poll`, or the controller changing its registers (a transmission
completes, a pending bit is set, ...).  The controller does not touch the
record of the requests written to it. -/
inductive Event where
  | send (msg : can_msg) (priority : Nat)
  | poll
  | hw (f : LPC_CAN_TypeDef → LPC_CAN_TypeDef)

/-- The state after one step. -/
def Event.step (cfg : Config) : Event → Driver → Driver
  | Event.send msg priority, s => (can_send_msg cfg msg priority s).2
  | Event.poll, s => can_poll cfg s
  | Event.hw f, s =>
    { s with LPC_CAN := { f s.LPC_CAN with if1_xfers := s.LPC_CAN.if1_xfers } }

/-- The state after a list of steps. -/
def run (cfg : Config) : List Event → Driver → Driver
  | [], s => s
  | e :: es, s => run cfg es (e.step cfg s)

/-- What a step did with a frame: `can_send_msg` programmed it into a message
object, `can_send_msg` put it into the software queue, or `can_poll`
programmed the frame at the head of the queue into a message object. -/
inductive Obs where
  | programmed (msg : can_msg)
  | queued (msg : can_msg)
  | drained (msg : can_msg)

/-- What a step does with a frame, read off its effect: a frame is handed to
the controller when the step writes a transfer request, and it is queued when
`can_send_msg` changes `tx_num_msgs` instead.  The frame `can_poll` hands
over is the argument of its `CAN_Send` call, `CAN_txbuf[tx_buf_start]`. -/
def observe (cfg : Config) : Event → Driver → Option Obs
  | Event.send msg priority, s =>
    if ((can_send_msg cfg msg priority s).2.LPC_CAN.if1_xfers.length
        = s.LPC_CAN.if1_xfers.length + 1) then some (Obs.programmed msg)
    else if (can_send_msg cfg msg priority s).2.tx_num_msgs ≠ s.tx_num_msgs then
      some (Obs.queued msg)
    else none
  | Event.poll, s =>
    if ((can_poll cfg s).LPC_CAN.if1_xfers.length = s.LPC_CAN.if1_xfers.length + 1) then
      some (Obs.drained (s.CAN_txbuf s.tx_buf_start))
    else none
  | Event.hw _, _ => none

/-- The observations of a list of steps, in order. -/
def trace (cfg : Config) : List Event → Driver → List Obs
  | [], _ => []
  | e :: es, s => (observe cfg e s).toList ++ trace cfg es (e.step cfg s)

/-- The states a list of steps goes through, the first one included. -/
def states (cfg : Config) : List Event → Driver → List Driver
  | [], s => [s]
  | e :: es, s => s :: states cfg es (e.step cfg s)

/-- The fields of a frame that `enqueue_message` copies: identifier, the
eight payload bytes and the length. -/
def can_msg.key (m : can_msg) : Nat × List Nat × Nat :=
  (m.id, (List.range 8).map m.data, m.length)

/-- The frames that `can_send_msg` put into the queue, oldest first. -/
def queued_keys : List Obs → List (Nat × List Nat × Nat)
  | [] => []
  | Obs.queued m :: os => m.key :: queued_keys os
  | _ :: os => queued_keys os

/-- The frames that `can_poll` handed to the controller, oldest first. -/
def drained_keys : List Obs → List (Nat × List Nat × Nat)
  | [] => []
  | Obs.drained m :: os => m.key :: drained_keys os
  | _ :: os => drained_keys os

/-- Kind (0 programmed by `can_send_msg`, 1 queued, 2 programmed by
`can_poll`) and identifier of an observation. -/
def Obs.tag : Obs → Nat × Nat
  | Obs.programmed m => (0, m.id)
  | Obs.queued m => (1, m.id)
  | Obs.drained m => (2, m.id)

/-- Number of message objects 21 to 32 with a transmission pending. -/
def tx_pending_count (c : LPC_CAN_TypeDef) : Nat :=
  ((List.range 12).filter (fun k => (BufferStatus c).testBit (20 + k))).length

/-- The contents of the software queue, oldest entry first. -/
def queue_keys (cfg : Config) (s : Driver) : List (Nat × List Nat × Nat) :=
  (List.range s.tx_num_msgs).map
    (fun k => (s.CAN_txbuf ((s.tx_buf_start + k) % cfg.CAN_TX_BUFFER_SIZE)).key)

/-- One step of a run that may also call the queue functions directly:
`enqueue_message`, `send_queued_messages`, or one of the steps of `Event`
(`can_send_msg`, `can_poll`, a register change by the controller). -/
inductive Call where
  | enqueue (msg : can_msg)
  | drain
  | ev (e : Event)

/-- The state after one call. -/
def Call.step (cfg : Config) : Call → Driver → Driver
  | Call.enqueue msg, s => (enqueue_message cfg msg s).2
  | Call.drain, s => (send_queued_messages cfg s).2
  | Call.ev e, s => e.step cfg s

/-- The state after a list of calls. -/
def Call.run (cfg : Config) : List Call → Driver → Driver
  | [], s => s
  | c :: cs, s => Call.run cfg cs (c.step cfg s)

/-- What a call does with a frame: `enqueue_message` that returns `NO_ERR`
has queued its argument, `send_queued_messages` that returns `NO_ERR` has
handed `CAN_txbuf[tx_buf_start]` to `CAN_Send`; the steps of `Event` are
observed as before. -/
def Call.observe (cfg : Config) : Call → Driver → Option Obs
  | Call.enqueue msg, s =>
    if (enqueue_message cfg msg s).1 = Err.NO_ERR then some (Obs.queued msg) else none
  | Call.drain, s =>
    if (send_queued_messages cfg s).1 = Err.NO_ERR then
      some (Obs.drained (s.CAN_txbuf s.tx_buf_start))
    else none
  | Call.ev e, s => Scandal.observe cfg e s

/-- The observations of a list of calls, in order. -/
def Call.trace (cfg : Config) : List Call → Driver → List Obs
  | [], _ => []
  | c :: cs, s => (c.observe cfg s).toList ++ Call.trace cfg cs (c.step cfg s)

/-! ## States and frames used in the examples -/

/-- A project configuration: a queue of 16 entries, tags 1 (extended) and 0
(standard). -/
def cfg16 : Config :=
  { CAN_TX_BUFFER_SIZE := 16, CAN_TX_BUFFER_MASK := 15, CAN_EXT_MSG := 1, CAN_STD_MSG := 0 }

/-- An all-zero message object. -/
def MsgRam_zero : MsgRam :=
  { ARB1 := 0, ARB2 := 0, MCTRL := 0, DA1 := 0, DA2 := 0, DB1 := 0, DB2 := 0 }

/-- The controller with every register zero and no request written yet. -/
def LPC_CAN_zero : LPC_CAN_TypeDef :=
  { CNTL := 0, STAT := 0, INT := 0, TXREQ1 := 0, TXREQ2 := 0,
    IF1_CMDREQ := 0, IF1_CMDMSK := 0, IF1_MSK1 := 0, IF1_MSK2 := 0, IF1_ARB1 := 0,
    IF1_ARB2 := 0, IF1_MCTRL := 0, IF1_DA1 := 0, IF1_DA2 := 0, IF1_DB1 := 0, IF1_DB2 := 0,
    IF2_CMDREQ := 0, IF2_CMDMSK := 0, IF2_ARB1 := 0, IF2_ARB2 := 0, IF2_MCTRL := 0,
    IF2_DA1 := 0, IF2_DA2 := 0, IF2_DB1 := 0, IF2_DB2 := 0,
    IF1_busy := 0, IF2_busy := 0, xfer_latency := 3,
    msg_ram := fun _ => MsgRam_zero, if1_xfers := [] }

/-- A frame with identifier `id`, tag `ext`, length 8 and the payload
`b, b+1, ..., b+7`. -/
def frame (id ext b : Nat) : can_msg :=
  { id := id, data := fun i => b + i, length := 8, ext := ext }

/-- The controller at a receive event for message object 4: `INT = 4`, no
error in `STAT`, and a standard frame with identifier `id` and data words
`w, w+1, w+2, w+3` in the message object. -/
def rx_event (id w : Nat) : LPC_CAN_TypeDef :=
  { LPC_CAN_zero with
    INT := 4, STAT := 0x10,
    msg_ram := fun _ =>
      { ARB1 := 0, ARB2 := 0x8000 ||| (id <<< 2), MCTRL := 0x8088,
        DA1 := w, DA2 := w + 1, DB1 := w + 2, DB2 := w + 3 } }

/-- The controller sets the pending bit of the message object (17 to 32)
whose number was last written to `IF1_CMDREQ`. -/
def tx_started (c : LPC_CAN_TypeDef) : LPC_CAN_TypeDef :=
  { c with TXREQ2 := c.TXREQ2 ||| (1 <<< (c.IF1_CMDREQ - 17)) }

/-- The controller has transmitted message object `n` (17 to 32) and clears
its pending bit. -/
def tx_done (n : Nat) (c : LPC_CAN_TypeDef) : LPC_CAN_TypeDef :=
  { c with TXREQ2 := c.TXREQ2 &&& not32 (1 <<< (n - 17)) }

/-- A burst of `n` standard frames with identifiers 0x200, 0x201, ..., the
controller setting the pending bit after each. -/
def burst : Nat → List Event
  | 0 => []
  | n + 1 => burst n ++ [Event.send (frame (0x200 + n) 0 n) 0, Event.hw tx_started]

/-- A burst of 11 frames, then frame 0x101, then, once message object 21 has
been transmitted, frame 0x102, and two polls, the second one after message
object 22 has been transmitted. -/
def overtake_events : List Event :=
  burst 11 ++
    [Event.send (frame 0x101 0 0x10) 0, Event.hw (tx_done 21),
     Event.send (frame 0x102 0 0x20) 0, Event.hw tx_started,
     Event.poll, Event.hw (tx_done 22), Event.poll, Event.hw tx_started]

/-- A configuration with a queue of 256 entries. -/
def cfg256 : Config :=
  { CAN_TX_BUFFER_SIZE := 256, CAN_TX_BUFFER_MASK := 255, CAN_EXT_MSG := 1, CAN_STD_MSG := 0 }

/-- Calls of `enqueue_message` with `n` standard frames, identifiers 0x300,
0x301, ... -/
def enqueue_burst : Nat → List Call
  | 0 => []
  | n + 1 => enqueue_burst n ++ [Call.enqueue (frame (0x300 + n) 0 n)]

/-- 256 frames are enqueued, then frame 0x999, then the queue is drained
once. -/
def wrap_calls : List Call :=
  enqueue_burst 256 ++ [Call.enqueue (frame 0x999 0 0x10), Call.drain]

/-- Three frames are enqueued, one is drained, one is passed to
`can_send_msg` while every transmit slot is pending, and the queue is polled
after message object 25 has completed. -/
def mixed_calls : List Call :=
  enqueue_burst 3 ++
    [Call.drain, Call.ev (Event.hw (fun c => { c with TXREQ2 := 0x7FF0 })),
     Call.ev (Event.send (frame 0x101 0 0x10) 0), Call.ev (Event.hw (tx_done 25)),
     Call.ev Event.poll]

/-- The globals as the C start-up code leaves them (all zero), on a
controller with every register zero. -/
def Driver_zero : Driver :=
  { LPC_CAN := LPC_CAN_zero, irq_enabled := true,
    recv_buf_used := fun _ => 0, 
    CAN_txbuf := fun _ => { id := 0, data := fun _ => 0, length := 0, ext := 0 },
    tx_buf_start := 0, tx_num_msgs := 0, BOffCnt := 0, EWarnCnt := 0, EPassCnt := 0,
    CANRxDone := fun _ => 0,
    CAN_rxbuf := fun _ => { ext := 0, id := 0, dlc := 0, data := fun _ => 0 } }

/-! ## Basic facts -/

theorem IF1_spin_eq (n : Nat) (c : LPC_CAN_TypeDef) (h : c.IF1_busy = n) :
    IF1_spin n c = { c with IF1_busy := 0 } := by
  induction n generalizing c with
  | zero => cases c; simp_all [IF1_spin]
  | succ k ih => rw [IF1_spin, ih _ rfl]

theorem IF1_wait_eq (c : LPC_CAN_TypeDef) : IF1_wait c = { c with IF1_busy := 0 } :=
  IF1_spin_eq _ c rfl

theorem IF2_spin_eq (n : Nat) (c : LPC_CAN_TypeDef) (h : c.IF2_busy = n) :
    IF2_spin n c = { c with IF2_busy := 0 } := by
  induction n generalizing c with
  | zero => cases c; simp_all [IF2_spin]
  | succ k ih => rw [IF2_spin, ih _ rfl]

theorem IF2_wait_eq (c : LPC_CAN_TypeDef) : IF2_wait c = { c with IF2_busy := 0 } :=
  IF2_spin_eq _ c rfl

theorem buffer_free_eq_testBit (c : LPC_CAN_TypeDef) (i : Nat) :
    buffer_free c i = !(BufferStatus c).testBit (i - 1) := by
  unfold buffer_free Nat.testBit
  generalize BufferStatus c >>> (i - 1) = x
  have h1 : (x % 256) &&& 1 = x % 2 := by rw [Nat.and_one_is_mod]; omega
  have h2 : 1 &&& x = x % 2 := by rw [Nat.and_comm, Nat.and_one_is_mod]
  rw [h1, h2]
  rcases Nat.mod_two_eq_zero_or_one x with h | h <;> simp [h]

/-! ## The software queue: C2, C3, C8 -/

/-- C2: on a full queue (`tx_num_msgs` equal to `CAN_TX_BUFFER_SIZE`)
`enqueue_message` returns `BUF_FULL_ERR` and the state after the call is the
state before it, so `tx_buf_start`, `tx_num_msgs` and every entry of
`CAN_txbuf` are unchanged. -/
theorem enqueue_message_full (cfg : Config) (msg : can_msg) (s : Driver)
    (h : s.tx_num_msgs = cfg.CAN_TX_BUFFER_SIZE) :
    enqueue_message cfg msg s = (Err.BUF_FULL_ERR, s) := by
  simp [enqueue_message, h]

theorem enqueue_message_full_witness :
    enqueue_message cfg16 (frame 5 1 0) { Driver_zero with tx_num_msgs := 16 }
      = (Err.BUF_FULL_ERR, { Driver_zero with tx_num_msgs := 16 }) :=
  enqueue_message_full cfg16 (frame 5 1 0) { Driver_zero with tx_num_msgs := 16 } rfl

theorem CAN_Send_loop_none (cfg : Config) (msg : can_msg) (n i : Nat) (c : LPC_CAN_TypeDef)
    (h : ∀ k, i ≤ k → k < i + n → buffer_free c k = false) :
    CAN_Send_loop cfg msg n i c = (Err.NO_MSG_ERR, c) := by
  induction n generalizing i with
  | zero => rfl
  | succ m ih =>
    rw [CAN_Send_loop, h i (le_refl i) (by omega)]
    exact ih (i + 1) (fun k h1 h2 => h k (by omega) (by omega))

theorem CAN_Send_loop_first (cfg : Config) (msg : can_msg) (n i j : Nat) (c : LPC_CAN_TypeDef)
    (hij : i ≤ j) (hjn : j < i + n) (hfree : buffer_free c j = true)
    (hbusy : ∀ k, i ≤ k → k < j → buffer_free c k = false) :
    CAN_Send_loop cfg msg n i c = (Err.NO_ERR, CAN_Send_slot cfg msg j c) := by
  induction n generalizing i with
  | zero => omega
  | succ m ih =>
    rw [CAN_Send_loop]
    by_cases hi : i = j
    · subst hi; simp [hfree]
    · rw [hbusy i (le_refl i) (by omega)]
      exact ih (i + 1) (by omega) (by omega) (fun k h1 h2 => hbusy k (by omega) h2)

/-- Bits 20 to 30 of the pending bitmap all set: `CAN_Send` finds no slot and
writes nothing. -/
theorem CAN_Send_none (cfg : Config) (Pri : Nat) (msg : can_msg) (c : LPC_CAN_TypeDef)
    (h : ∀ b, 20 ≤ b → b < 31 → (BufferStatus c).testBit b = true) :
    CAN_Send cfg Pri msg c = (Err.NO_MSG_ERR, c) := by
  apply CAN_Send_loop_none
  intro k h1 h2
  simp only [RECV_BUFF_DIVIDE, MSG_OBJ_MAX] at h1 h2
  rw [buffer_free_eq_testBit, h (k - 1) (by omega) (by omega)]
  rfl

/-- Bit `b` is the lowest clear bit among bits 20 to 30 of the pending
bitmap: `CAN_Send` programs message object `b + 1`. -/
theorem CAN_Send_first (cfg : Config) (Pri : Nat) (msg : can_msg) (c : LPC_CAN_TypeDef)
    (b : Nat) (h20 : 20 ≤ b) (h31 : b < 31) (hclear : (BufferStatus c).testBit b = false)
    (hset : ∀ k, 20 ≤ k → k < b → (BufferStatus c).testBit k = true) :
    CAN_Send cfg Pri msg c = (Err.NO_ERR, CAN_Send_slot cfg msg (b + 1) c) := by
  apply CAN_Send_loop_first
  · simp only [RECV_BUFF_DIVIDE]; omega
  · simp only [RECV_BUFF_DIVIDE, MSG_OBJ_MAX]; omega
  · rw [buffer_free_eq_testBit]; simp [hclear]
  · intro k h1 h2
    simp only [RECV_BUFF_DIVIDE] at h1
    rw [buffer_free_eq_testBit, hset (k - 1) (by omega) (by omega)]
    rfl

/-- C3: when the queue is empty or the `CAN_Send` attempt of
`send_queued_messages` does not return `NO_ERR`, then `tx_buf_start`,
`tx_num_msgs` and `CAN_txbuf` after the call are those before it; and
`tx_buf_start` differs after the call only if the queue was not empty and
`CAN_Send` returned `NO_ERR`. -/
theorem send_queued_messages_atomic (cfg : Config) (s : Driver) :
    ((s.tx_num_msgs = 0 ∨
        (CAN_Send cfg 0 (s.CAN_txbuf s.tx_buf_start) s.LPC_CAN).1 ≠ Err.NO_ERR) →
      (send_queued_messages cfg s).2.tx_buf_start = s.tx_buf_start ∧
      (send_queued_messages cfg s).2.tx_num_msgs = s.tx_num_msgs ∧
      (send_queued_messages cfg s).2.CAN_txbuf = s.CAN_txbuf) ∧
    ((send_queued_messages cfg s).2.tx_buf_start ≠ s.tx_buf_start →
      s.tx_num_msgs ≠ 0 ∧
      (CAN_Send cfg 0 (s.CAN_txbuf s.tx_buf_start) s.LPC_CAN).1 = Err.NO_ERR) := by
  unfold send_queued_messages
  by_cases h0 : s.tx_num_msgs = 0
  · simp [h0]
  · by_cases he : (CAN_Send cfg 0 (s.CAN_txbuf s.tx_buf_start) s.LPC_CAN).1 = Err.NO_ERR
    · simp [h0, he]
    · simp [h0, he]

/-- A queue holding three frames from position 5 on.  With message objects 21
to 31 all pending (`TXREQ2 = 0x7FF0`) the `CAN_Send` attempt returns
`NO_MSG_ERR` and head, count and buffer stay as they were; with no
transmission pending the head moves from 5 to 6, and then the queue was not
empty and `CAN_Send` returned `NO_ERR`. -/
theorem send_queued_messages_atomic_witness :
    ((CAN_Send cfg16 0 (Driver_zero.CAN_txbuf 5)
        { LPC_CAN_zero with TXREQ2 := 0x7FF0 }).1 = Err.NO_MSG_ERR ∧
      (send_queued_messages cfg16
        { Driver_zero with
          LPC_CAN := { LPC_CAN_zero with TXREQ2 := 0x7FF0 }
          tx_buf_start := 5
          tx_num_msgs := 3 }).2.tx_buf_start = 5 ∧
      (send_queued_messages cfg16
        { Driver_zero with
          LPC_CAN := { LPC_CAN_zero with TXREQ2 := 0x7FF0 }
          tx_buf_start := 5
          tx_num_msgs := 3 }).2.tx_num_msgs = 3 ∧
      (send_queued_messages cfg16
        { Driver_zero with
          LPC_CAN := { LPC_CAN_zero with TXREQ2 := 0x7FF0 }
          tx_buf_start := 5
          tx_num_msgs := 3 }).2.CAN_txbuf = Driver_zero.CAN_txbuf) ∧
    ((send_queued_messages cfg16
        { Driver_zero with tx_buf_start := 5, tx_num_msgs := 3 }).2.tx_buf_start = 6 ∧
      (3 : Nat) ≠ 0 ∧
      (CAN_Send cfg16 0 (Driver_zero.CAN_txbuf 5) LPC_CAN_zero).1 = Err.NO_ERR) :=
  ⟨⟨by decide,
      (send_queued_messages_atomic cfg16
        { Driver_zero with
          LPC_CAN := { LPC_CAN_zero with TXREQ2 := 0x7FF0 }
          tx_buf_start := 5
          tx_num_msgs := 3 }).1 (Or.inr (by decide))⟩,
    ⟨by decide,
      (send_queued_messages_atomic cfg16
        { Driver_zero with tx_buf_start := 5, tx_num_msgs := 3 }).2 (by decide)⟩⟩

/-- C8: when the software queue is empty or every slot of the transmit
region (pending-bitmap bits 20 to 31) is pending, `can_poll` returns the
state it was given: queue, counters, flags, shadow buffer and every
controller register are unchanged. -/
theorem can_poll_noop (cfg : Config) (s : Driver)
    (h : s.tx_num_msgs = 0 ∨
      ∀ b, 20 ≤ b → b < 32 → (BufferStatus s.LPC_CAN).testBit b = true) :
    can_poll cfg s = s := by
  unfold can_poll send_queued_messages
  by_cases h0 : s.tx_num_msgs = 0
  · simp [h0]
  · rcases h with h | h
    · exact absurd h h0
    · have hs := CAN_Send_none cfg 0 (s.CAN_txbuf s.tx_buf_start) s.LPC_CAN
        (fun b h1 h2 => h b h1 (by omega))
      simp [h0, hs]

theorem can_poll_noop_witness :
    can_poll cfg16
        { Driver_zero with
          LPC_CAN := { LPC_CAN_zero with TXREQ2 := 0xFFF0 }
          tx_num_msgs := 2 }
      = { Driver_zero with
          LPC_CAN := { LPC_CAN_zero with TXREQ2 := 0xFFF0 }
          tx_num_msgs := 2 } :=
  can_poll_noop cfg16 _ (Or.inr (by
    intro b h1 h2
    have hb : BufferStatus { LPC_CAN_zero with TXREQ2 := 0xFFF0 } = 0xFFF00000 := by decide
    simp only [hb]
    interval_cases b <;> decide))

/-! ## Payload packing: C4 -/

theorem and_ff_eq_mod (x : Nat) : x &&& 0xFF = x % 256 :=
  Nat.and_pow_two_sub_one_eq_mod x 8

theorem and_ffff_eq_mod (x : Nat) : x &&& 0xFFFF = x % 65536 :=
  Nat.and_pow_two_sub_one_eq_mod x 16

theorem and_ffff0000_shift (x : Nat) : (x &&& 0xFFFF0000) >>> 16 = (x / 65536) % 65536 := by
  have h : (x &&& 0xFFFF0000) >>> 16 = (x >>> 16) &&& 0xFFFF := by
    apply Nat.eq_of_testBit_eq
    intro i
    have hc : Nat.testBit 0xFFFF0000 (16 + i) = Nat.testBit 0xFFFF i := by
      have h := Nat.testBit_shiftLeft (i := 16) (j := 16 + i) 0xFFFF
      simpa using h
    simp [Nat.testBit_shiftRight, Nat.testBit_and, hc]
  rw [h, and_ffff_eq_mod, Nat.shiftRight_eq_div_pow]

theorem CAN_Send_slot_DA1 (cfg : Config) (msg : can_msg) (i : Nat) (c : LPC_CAN_TypeDef) :
    (CAN_Send_slot cfg msg i c).IF1_DA1 = memcpy_u32 msg.data 0 % 65536 := by
  simp [CAN_Send_slot, IF1_wait_eq, write_IF1_CMDREQ, and_ffff_eq_mod]

theorem CAN_Send_slot_DA2 (cfg : Config) (msg : can_msg) (i : Nat) (c : LPC_CAN_TypeDef) :
    (CAN_Send_slot cfg msg i c).IF1_DA2 = (memcpy_u32 msg.data 0 / 65536) % 65536 := by
  simp [CAN_Send_slot, IF1_wait_eq, write_IF1_CMDREQ, and_ffff0000_shift]

theorem CAN_Send_slot_DB1 (cfg : Config) (msg : can_msg) (i : Nat) (c : LPC_CAN_TypeDef) :
    (CAN_Send_slot cfg msg i c).IF1_DB1 = memcpy_u32 msg.data 4 % 65536 := by
  simp [CAN_Send_slot, IF1_wait_eq, write_IF1_CMDREQ, and_ffff_eq_mod]

theorem CAN_Send_slot_DB2 (cfg : Config) (msg : can_msg) (i : Nat) (c : LPC_CAN_TypeDef) :
    (CAN_Send_slot cfg msg i c).IF1_DB2 = (memcpy_u32 msg.data 4 / 65536) % 65536 := by
  simp [CAN_Send_slot, IF1_wait_eq, write_IF1_CMDREQ, and_ffff0000_shift]

theorem CAN_Send_loop_ok (cfg : Config) (msg : can_msg) (n i : Nat) (c : LPC_CAN_TypeDef)
    (h : (CAN_Send_loop cfg msg n i c).1 = Err.NO_ERR) :
    ∃ j, i ≤ j ∧ j < i + n ∧ buffer_free c j = true ∧
      (∀ k, i ≤ k → k < j → buffer_free c k = false) ∧
      CAN_Send_loop cfg msg n i c = (Err.NO_ERR, CAN_Send_slot cfg msg j c) := by
  induction n generalizing i with
  | zero => simp [CAN_Send_loop] at h
  | succ m ih =>
    rw [CAN_Send_loop] at h ⊢
    by_cases hf : buffer_free c i = true
    · exact ⟨i, le_refl i, by omega, hf, fun k h1 h2 => by omega, by simp [hf]⟩
    · simp only [hf] at h ⊢
      obtain ⟨j, h1, h2, h3, h4, h5⟩ := ih (i + 1) h
      refine ⟨j, by omega, by omega, h3, ?_, h5⟩
      intro k hk1 hk2
      by_cases hki : k = i
      · subst hki; simpa using hf
      · exact h4 k (by omega) hk2

theorem CAN_decode_packet_data (msg_num : Nat) (m : can_msg) (s : Driver) (k : Nat)
    (hk : k < 8) :
    (CAN_decode_packet msg_num m s).1.data k
      = ((s.CAN_rxbuf msg_num).data (k / 2) / 256 ^ (k % 2)) % 256 := by
  simp only [CAN_decode_packet, and_ff_eq_mod, Nat.shiftRight_eq_div_pow]
  interval_cases k <;> simp [Function.update_apply]

/-- C4: when `CAN_Send` programs a slot with a frame whose payload bytes are
`b[0..7]` (each below 256), the words it leaves in `IF1_DA1`, `IF1_DA2`,
`IF1_DB1`, `IF1_DB2`, placed in `data[0..3]` of a shadow entry and unpacked
by `CAN_decode_packet`, give back `data[k] = b[k]` for every `k` in 0..7. -/
theorem payload_roundtrip (cfg : Config) (Pri : Nat) (msg : can_msg) (c : LPC_CAN_TypeDef)
    (hbytes : ∀ k, k < 8 → msg.data k < 256)
    (hsent : (CAN_Send cfg Pri msg c).1 = Err.NO_ERR)
    (msg_num : Nat) (m : can_msg) (s : Driver)
    (h0 : (s.CAN_rxbuf msg_num).data 0 = (CAN_Send cfg Pri msg c).2.IF1_DA1)
    (h1 : (s.CAN_rxbuf msg_num).data 1 = (CAN_Send cfg Pri msg c).2.IF1_DA2)
    (h2 : (s.CAN_rxbuf msg_num).data 2 = (CAN_Send cfg Pri msg c).2.IF1_DB1)
    (h3 : (s.CAN_rxbuf msg_num).data 3 = (CAN_Send cfg Pri msg c).2.IF1_DB2) :
    ∀ k, k < 8 → (CAN_decode_packet msg_num m s).1.data k = msg.data k := by
  obtain ⟨j, -, -, -, -, hj⟩ := CAN_Send_loop_ok cfg msg _ _ c hsent
  have hj2 : (CAN_Send cfg Pri msg c).2 = CAN_Send_slot cfg msg j c := by
    unfold CAN_Send; rw [hj]
  rw [hj2] at h0 h1 h2 h3
  rw [CAN_Send_slot_DA1] at h0
  rw [CAN_Send_slot_DA2] at h1
  rw [CAN_Send_slot_DB1] at h2
  rw [CAN_Send_slot_DB2] at h3
  have b0 := hbytes 0 (by omega)
  have b1 := hbytes 1 (by omega)
  have b2 := hbytes 2 (by omega)
  have b3 := hbytes 3 (by omega)
  have b4 := hbytes 4 (by omega)
  have b5 := hbytes 5 (by omega)
  have b6 := hbytes 6 (by omega)
  have b7 := hbytes 7 (by omega)
  intro k hk
  rw [CAN_decode_packet_data msg_num m s k hk]
  simp only [memcpy_u32] at h0 h1 h2 h3
  interval_cases k <;> simp only [Nat.reduceDiv, Nat.reduceMod, pow_zero, pow_one, h0, h1, h2, h3,
    Nat.zero_add, Nat.reduceAdd, Nat.reducePow] <;> omega

/-- A shadow buffer whose entry 3 holds the four words of the payload
0x10, 0x11, ..., 0x17: byte 5 is read back as sent. -/
theorem payload_roundtrip_witness :
    (CAN_decode_packet 3 (frame 0 0 0)
      { Driver_zero with
        CAN_rxbuf := fun _ =>
          { ext := 1, id := 5, dlc := 8,
            data := fun i => if i = 0 then 0x1110 else if i = 1 then 0x1312
              else if i = 2 then 0x1514 else 0x1716 } }).1.data 5
      = (frame 5 1 0x10).data 5 :=
  payload_roundtrip cfg16 0 (frame 5 1 0x10) LPC_CAN_zero
    (by intro k hk; simp only [frame]; omega) (by decide) 3 (frame 0 0 0) _
    (by decide) (by decide) (by decide) (by decide) 5 (by decide)

/-! ## Filter registration: C5 -/

theorem can_register_id_loop_none (cfg : Config) (mask data ext n i : Nat) (s : Driver)
    (h : ∀ k, i ≤ k → k < i + n → s.recv_buf_used k ≠ 0) :
    can_register_id_loop cfg mask data ext n i s = (Err.NO_MSG_ERR, irq_on s) := by
  induction n generalizing i with
  | zero => rfl
  | succ m ih =>
    rw [can_register_id_loop, if_neg (h i (le_refl i) (by omega))]
    exact ih (i + 1) (fun k h1 h2 => h k (by omega) (by omega))

theorem can_register_id_loop_first (cfg : Config) (mask data ext n i j : Nat) (s : Driver)
    (hij : i ≤ j) (hjn : j < i + n) (hfree : s.recv_buf_used j = 0)
    (hused : ∀ k, i ≤ k → k < j → s.recv_buf_used k ≠ 0) :
    can_register_id_loop cfg mask data ext n i s
      = (Err.NO_ERR,
          irq_on { s with
            LPC_CAN := CAN_set_up_filter cfg (j + 1) mask data ext s.LPC_CAN
            recv_buf_used := Function.update s.recv_buf_used j 1 }) := by
  induction n generalizing i with
  | zero => omega
  | succ m ih =>
    rw [can_register_id_loop]
    by_cases hi : i = j
    · subst hi; simp [hfree]
    · rw [if_neg (hused i (le_refl i) (by omega))]
      exact ih (i + 1) (by omega) (by omega) (fun k h1 h2 => hused k (by omega) h2)

/-- Every in-use flag below `RECV_BUFF_DIVIDE` set: `can_register_id` fails
and only switches the interrupts off and on again. -/
theorem can_register_id_none (cfg : Config) (mask data priority ext : Nat) (s : Driver)
    (h : ∀ k, k < RECV_BUFF_DIVIDE → s.recv_buf_used k ≠ 0) :
    can_register_id cfg mask data priority ext s = (Err.NO_MSG_ERR, irq_on (irq_off s)) := by
  unfold can_register_id
  apply can_register_id_loop_none
  intro k _ h2
  exact h k (by omega)

/-- Flag `j` is the lowest clear in-use flag below `RECV_BUFF_DIVIDE`:
`can_register_id` calls `CAN_set_up_filter(j + 1, ...)` and sets flag `j`. -/
theorem can_register_id_first (cfg : Config) (mask data priority ext j : Nat) (s : Driver)
    (hj : j < RECV_BUFF_DIVIDE) (hfree : s.recv_buf_used j = 0)
    (hused : ∀ k, k < j → s.recv_buf_used k ≠ 0) :
    can_register_id cfg mask data priority ext s
      = (Err.NO_ERR,
          irq_on { irq_off s with
            LPC_CAN := CAN_set_up_filter cfg (j + 1) mask data ext (irq_off s).LPC_CAN
            recv_buf_used := Function.update s.recv_buf_used j 1 }) := by
  unfold can_register_id
  exact can_register_id_loop_first cfg mask data ext _ 0 j (irq_off s) (Nat.zero_le j)
    (by omega) hfree (fun k _ h2 => hused k h2)

theorem can_register_id_n_flags (cfg : Config) (args : Nat → Nat × Nat × Nat × Nat)
    (s : Driver) (hclear : ∀ i, s.recv_buf_used i = 0) (k : Nat) (hk : k ≤ RECV_BUFF_DIVIDE) :
    ∀ i, (can_register_id_n cfg args k s).recv_buf_used i = if i < k then 1 else 0 := by
  induction k with
  | zero => intro i; simp [can_register_id_n, hclear]
  | succ m ih =>
    have ihm := ih (by omega)
    intro i
    rw [can_register_id_n, can_register_id_first cfg _ _ _ _ m _ (by omega)
      (by rw [ihm]; simp) (fun j hj => by rw [ihm]; simp [hj])]
    simp only [irq_on, irq_off, Function.update_apply, ihm]
    by_cases him : i = m
    · simp [him]
    · by_cases h2 : i < m
      · simp [him, h2, Nat.lt_succ_of_lt h2]
      · have h3 : ¬ i < m + 1 := by omega
        simp [him, h2, h3]

/-- C5: starting with every in-use flag clear, call number `k + 1` of
`can_register_id` (for `k < RECV_BUFF_DIVIDE = 20`) returns `NO_ERR`, finds
`recv_buf_used[k]` clear and sets exactly that flag; call number 21 returns
`NO_MSG_ERR`, leaves every flag as it was, writes no transfer request, and
leaves every controller register except the interrupt-enable bits of `CNTL`
(cleared and set again) as it was. -/
theorem can_register_id_exhaust (cfg : Config) (args : Nat → Nat × Nat × Nat × Nat)
    (s : Driver) (hclear : ∀ i, s.recv_buf_used i = 0) :
    (∀ k, k < RECV_BUFF_DIVIDE →
      (can_register_id cfg (args k).1 (args k).2.1 (args k).2.2.1 (args k).2.2.2
        (can_register_id_n cfg args k s)).1 = Err.NO_ERR ∧
      (can_register_id_n cfg args k s).recv_buf_used k = 0 ∧
      (can_register_id_n cfg args (k + 1) s).recv_buf_used
        = Function.update (can_register_id_n cfg args k s).recv_buf_used k 1) ∧
    (can_register_id cfg (args 20).1 (args 20).2.1 (args 20).2.2.1 (args 20).2.2.2
      (can_register_id_n cfg args 20 s)).1 = Err.NO_MSG_ERR ∧
    (can_register_id_n cfg args 21 s).recv_buf_used
      = (can_register_id_n cfg args 20 s).recv_buf_used ∧
    (can_register_id_n cfg args 21 s).LPC_CAN
      = { (can_register_id_n cfg args 20 s).LPC_CAN with
          CNTL := ((can_register_id_n cfg args 20 s).LPC_CAN.CNTL
            &&& not32 (CTRL_IE ||| CTRL_SIE ||| CTRL_EIE)) ||| (CTRL_IE ||| CTRL_SIE ||| CTRL_EIE) } := by
  have hlast : ∀ mask data priority ext,
      can_register_id cfg mask data priority ext (can_register_id_n cfg args 20 s)
        = (Err.NO_MSG_ERR, irq_on (irq_off (can_register_id_n cfg args 20 s))) := by
    intro mask data priority ext
    apply can_register_id_none
    intro k hk
    rw [can_register_id_n_flags cfg args s hclear 20 (le_refl _)]
    simp only [RECV_BUFF_DIVIDE] at hk
    simp [hk]
  refine ⟨?_, ?_, ?_, ?_⟩
  · intro k hk
    have hflags := can_register_id_n_flags cfg args s hclear k (le_of_lt hk)
    have hcall := can_register_id_first cfg (args k).1 (args k).2.1 (args k).2.2.1
      (args k).2.2.2 k (can_register_id_n cfg args k s) hk (by rw [hflags]; simp)
      (fun j hj => by rw [hflags]; simp [hj])
    refine ⟨by rw [hcall], by rw [hflags]; simp, ?_⟩
    rw [can_register_id_n, hcall]
    simp [irq_on, irq_off]
  · rw [hlast]
  · rw [can_register_id_n, hlast]
    simp [irq_on, irq_off]
  · rw [can_register_id_n, hlast]
    simp [irq_on, irq_off]

theorem can_register_id_exhaust_witness :
    (can_register_id cfg16 0x7FF 0x123 0 0
      (can_register_id_n cfg16 (fun _ => (0x7FF, 0x123, 0, 0)) 20 Driver_zero)).1
      = Err.NO_MSG_ERR :=
  (can_register_id_exhaust cfg16 (fun _ => (0x7FF, 0x123, 0, 0)) Driver_zero (fun _ => rfl)).2.1

/-! ## Polling for a received frame: C9 -/

theorem can_get_msg_loop_none (msg : can_msg) (n i : Nat) (s : Driver)
    (h : ∀ k, i ≤ k → k < i + n → s.CANRxDone k ≠ TRUE) :
    can_get_msg_loop msg n i s = (Err.NO_MSG_ERR, msg, s) := by
  induction n generalizing i with
  | zero => rfl
  | succ m ih =>
    rw [can_get_msg_loop, if_neg (h i (le_refl i) (by omega))]
    exact ih (i + 1) (fun k h1 h2 => h k (by omega) (by omega))

theorem can_get_msg_loop_first (msg : can_msg) (n i j : Nat) (s : Driver)
    (hij : i ≤ j) (hjn : j < i + n) (hset : s.CANRxDone j = TRUE)
    (hclear : ∀ k, i ≤ k → k < j → s.CANRxDone k ≠ TRUE) :
    can_get_msg_loop msg n i s
      = (Err.NO_ERR, (CAN_decode_packet j msg s).1, (CAN_decode_packet j msg s).2) := by
  induction n generalizing i with
  | zero => omega
  | succ m ih =>
    rw [can_get_msg_loop]
    by_cases hi : i = j
    · subst hi; simp [hset]
    · rw [if_neg (hclear i (le_refl i) (by omega))]
      exact ih (i + 1) (by omega) (by omega) (fun k h1 h2 => hclear k (by omega) h2)

/-- The lowest set ready flag is `i`: `can_get_msg` decodes slot `i` and
clears that flag. -/
theorem can_get_msg_first (msg : can_msg) (s : Driver) (i : Nat) (hi : i < MSG_OBJ_MAX)
    (hset : s.CANRxDone i = TRUE) (hlow : ∀ k, k < i → s.CANRxDone k ≠ TRUE) :
    can_get_msg msg s
      = (Err.NO_ERR, (CAN_decode_packet i msg s).1,
          { s with CANRxDone := Function.update s.CANRxDone i 0 }) := by
  unfold can_get_msg
  rw [can_get_msg_loop_first msg _ 0 i s (Nat.zero_le i) (by omega) hset
    (fun k _ h2 => hlow k h2)]
  rfl

/-- No ready flag set: `can_get_msg` changes nothing. -/
theorem can_get_msg_none (msg : can_msg) (s : Driver)
    (h : ∀ i, i < MSG_OBJ_MAX → s.CANRxDone i ≠ TRUE) :
    can_get_msg msg s = (Err.NO_MSG_ERR, msg, s) := by
  unfold can_get_msg
  exact can_get_msg_loop_none msg _ 0 s (fun k _ h2 => h k (by omega))

/-- C9: `can_get_msg` returns `NO_ERR` exactly when some ready flag
`CANRxDone[i]`, `i < MSG_OBJ_MAX`, is set (equal to `TRUE`); the frame it then
returns is the one `CAN_decode_packet` makes of the lowest such slot, that
flag is cleared and every other flag, and the shadow buffer, are unchanged;
when no flag is set it returns `NO_MSG_ERR` and hands back the state and the
caller's frame as they were. -/
theorem can_get_msg_spec (msg : can_msg) (s : Driver) :
    ((can_get_msg msg s).1 = Err.NO_ERR ↔ ∃ i, i < MSG_OBJ_MAX ∧ s.CANRxDone i = TRUE) ∧
    (∀ i, i < MSG_OBJ_MAX → s.CANRxDone i = TRUE → (∀ k, k < i → s.CANRxDone k ≠ TRUE) →
      can_get_msg msg s
        = (Err.NO_ERR, (CAN_decode_packet i msg s).1,
            { s with CANRxDone := Function.update s.CANRxDone i 0 })) ∧
    ((∀ i, i < MSG_OBJ_MAX → s.CANRxDone i ≠ TRUE) →
      can_get_msg msg s = (Err.NO_MSG_ERR, msg, s)) := by
  refine ⟨⟨?_, ?_⟩, can_get_msg_first msg s, can_get_msg_none msg s⟩
  · intro hok
    by_contra hno
    have h : ∀ i, i < MSG_OBJ_MAX → s.CANRxDone i ≠ TRUE :=
      fun i hi hset => hno ⟨i, hi, hset⟩
    rw [can_get_msg_none msg s h] at hok
    cases hok
  · intro hex
    classical
    have hlt := (Nat.find_spec hex).1
    have hset := (Nat.find_spec hex).2
    have hlow : ∀ k, k < Nat.find hex → s.CANRxDone k ≠ TRUE := by
      intro k hk hkset
      exact Nat.find_min hex hk ⟨by omega, hkset⟩
    rw [can_get_msg_first msg s (Nat.find hex) hlt hset hlow]

theorem can_get_msg_spec_witness :
    can_get_msg (frame 0 0 0)
        { Driver_zero with CANRxDone := fun i => if i = 4 ∨ i = 9 then 1 else 0 }
      = (Err.NO_ERR,
          (CAN_decode_packet 4 (frame 0 0 0)
            { Driver_zero with CANRxDone := fun i => if i = 4 ∨ i = 9 then 1 else 0 }).1,
          { Driver_zero with
            CANRxDone := Function.update (fun i => if i = 4 ∨ i = 9 then 1 else 0) 4 0 }) :=
  (can_get_msg_spec (frame 0 0 0)
    { Driver_zero with CANRxDone := fun i => if i = 4 ∨ i = 9 then 1 else 0 }).2.1 4
    (by decide) (by decide) (by intro k hk; interval_cases k <;> decide)

/-! ## The transmit region scanned by `CAN_Send`: C10 -/

/-- `CAN_Send` reports no free slot exactly when bits 20 to 30 of the pending
bitmap are all set; bit 31 (message object 32) is never looked at. -/
theorem CAN_Send_no_slot_iff (cfg : Config) (Pri : Nat) (msg : can_msg) (c : LPC_CAN_TypeDef) :
    (CAN_Send cfg Pri msg c).1 = Err.NO_MSG_ERR ↔
      ∀ b, 20 ≤ b → b < 31 → (BufferStatus c).testBit b = true := by
  constructor
  · intro h
    by_contra hno
    push_neg at hno
    classical
    have hex : ∃ b, 20 ≤ b ∧ b < 31 ∧ (BufferStatus c).testBit b = false := by
      obtain ⟨b, h1, h2, h3⟩ := hno
      exact ⟨b, h1, h2, by simpa using h3⟩
    obtain ⟨h1, h2, h3⟩ := Nat.find_spec hex
    have hlow : ∀ k, 20 ≤ k → k < Nat.find hex → (BufferStatus c).testBit k = true := by
      intro k hk1 hk2
      by_contra hk3
      exact Nat.find_min hex hk2 ⟨hk1, by omega, by simpa using hk3⟩
    rw [CAN_Send_first cfg Pri msg c (Nat.find hex) h1 h2 h3 hlow] at h
    cases h
  · intro h
    rw [CAN_Send_none cfg Pri msg c h]

/-- C10, at the failing input: with `TXREQ2 = 0x7FF0` and `TXREQ1 = 0` the
pending bits 20 to 30 are set and bit 31 is clear, so message object 32 of
the transmit region is free; `CAN_Send` nevertheless returns `NO_MSG_ERR` and
programs nothing, because its loop stops at `i = MSG_OBJ_MAX - 1 = 31`. -/
theorem CAN_Send_skips_object_32 :
    (BufferStatus { LPC_CAN_zero with TXREQ2 := 0x7FF0 }).testBit 31 = false ∧
    CAN_Send cfg16 0 (frame 5 1 0x10) { LPC_CAN_zero with TXREQ2 := 0x7FF0 }
      = (Err.NO_MSG_ERR, { LPC_CAN_zero with TXREQ2 := 0x7FF0 }) := by
  have hb : BufferStatus { LPC_CAN_zero with TXREQ2 := 0x7FF0 } = 0x7FF00000 := by decide
  refine ⟨by rw [hb]; decide, ?_⟩
  apply CAN_Send_none
  intro b h1 h2
  rw [hb]
  interval_cases b <;> decide

/-! ## Status interrupts: C6 -/

/-- A status interrupt with the error-warning bit set: the handler counts a
warning and returns, whatever the other status bits are. -/
theorem CAN_IRQHandler_ewarn (cfg : Config) (hw : List (LPC_CAN_TypeDef → LPC_CAN_TypeDef))
    (s : Driver) (hint : s.LPC_CAN.INT &&& CAN_STATUS_INTERRUPT ≠ 0)
    (hwarn : s.LPC_CAN.STAT &&& STAT_EWARN ≠ 0) :
    CAN_IRQHandler cfg hw s = { s with EWarnCnt := (s.EWarnCnt + 1) % 2 ^ 32 } := by
  have h0 : s.LPC_CAN.INT ≠ 0 := by
    intro h; rw [h] at hint; simp at hint
  cases hw <;> simp [CAN_IRQHandler, CAN_IRQHandler_body, h0, hint, hwarn]

/-- A status interrupt with the bus-off bit set and the error-warning bit
clear: the handler counts a bus-off, clears bit 0 of `CNTL` and returns. -/
theorem CAN_IRQHandler_boff (cfg : Config) (hw : List (LPC_CAN_TypeDef → LPC_CAN_TypeDef))
    (s : Driver) (hint : s.LPC_CAN.INT &&& CAN_STATUS_INTERRUPT ≠ 0)
    (hwarn : s.LPC_CAN.STAT &&& STAT_EWARN = 0)
    (hboff : s.LPC_CAN.STAT &&& STAT_BOFF ≠ 0) :
    CAN_IRQHandler cfg hw s
      = { s with
          BOffCnt := (s.BOffCnt + 1) % 2 ^ 32
          LPC_CAN := { s.LPC_CAN with CNTL := s.LPC_CAN.CNTL &&& not32 0x1 } } := by
  have h0 : s.LPC_CAN.INT ≠ 0 := by
    intro h; rw [h] at hint; simp at hint
  cases hw <;> simp [CAN_IRQHandler, CAN_IRQHandler_body, h0, hint, hwarn, hboff]

/-- C6, at the failing input: a status interrupt (`INT = 0x8000`) with
`STAT = 0xC0`, bus-off and error-warning both set, and `CNTL = 0x0F`.  The
handler returns from the error-warning branch: `EWarnCnt` goes from 0 to 1,
`BOffCnt` stays 0 and bit 0 (INIT) of `CNTL` is still set. -/
theorem CAN_IRQHandler_busoff_masked :
    (0xC0 &&& STAT_BOFF ≠ 0) ∧
    (CAN_IRQHandler cfg16 []
      { Driver_zero with
        LPC_CAN := { LPC_CAN_zero with INT := 0x8000, STAT := 0xC0, CNTL := 0x0F } }).BOffCnt = 0 ∧
    (CAN_IRQHandler cfg16 []
      { Driver_zero with
        LPC_CAN := { LPC_CAN_zero with INT := 0x8000, STAT := 0xC0, CNTL := 0x0F } }).EWarnCnt = 1 ∧
    (CAN_IRQHandler cfg16 []
      { Driver_zero with
        LPC_CAN := { LPC_CAN_zero with INT := 0x8000, STAT := 0xC0, CNTL := 0x0F } }).LPC_CAN.CNTL
      &&& CTRL_INIT = 1 := by
  refine ⟨by decide, ?_, ?_, ?_⟩ <;>
  · rw [CAN_IRQHandler_ewarn cfg16 [] _ (by decide) (by decide)]
    rfl

/-! ## Receive events: C7 -/

theorem CAN_MessageProcess_other (cfg : Config) (n k : Nat) (s : Driver) (hk : k ≠ n) :
    (CAN_MessageProcess cfg n s).CAN_rxbuf k = s.CAN_rxbuf k := by
  simp [CAN_MessageProcess, Function.update_apply, hk]

theorem CAN_MessageProcess_flags (cfg : Config) (n : Nat) (s : Driver) :
    (CAN_MessageProcess cfg n s).CANRxDone = s.CANRxDone := rfl

theorem CAN_MessageProcess_entry (cfg : Config) (n : Nat) (s : Driver) :
    ((CAN_MessageProcess cfg n s).CAN_rxbuf n).ext
      = (if (s.LPC_CAN.msg_ram (n + 1)).ARB2 &&& ID_MTD ≠ 0 then cfg.CAN_EXT_MSG
          else cfg.CAN_STD_MSG) ∧
    ((CAN_MessageProcess cfg n s).CAN_rxbuf n).id
      = (if (s.LPC_CAN.msg_ram (n + 1)).ARB2 &&& ID_MTD ≠ 0 then
          ((s.LPC_CAN.msg_ram (n + 1)).ARB1
            ||| (((s.LPC_CAN.msg_ram (n + 1)).ARB2 &&& 0x5FFF) <<< 16)) % 2 ^ 32
          else ((s.LPC_CAN.msg_ram (n + 1)).ARB2 &&& 0x1FFF) >>> 2) ∧
    ((CAN_MessageProcess cfg n s).CAN_rxbuf n).dlc
      = (s.LPC_CAN.msg_ram (n + 1)).MCTRL &&& 0x000F ∧
    ((CAN_MessageProcess cfg n s).CAN_rxbuf n).data 0 = (s.LPC_CAN.msg_ram (n + 1)).DA1 ∧
    ((CAN_MessageProcess cfg n s).CAN_rxbuf n).data 1 = (s.LPC_CAN.msg_ram (n + 1)).DA2 ∧
    ((CAN_MessageProcess cfg n s).CAN_rxbuf n).data 2 = (s.LPC_CAN.msg_ram (n + 1)).DB1 ∧
    ((CAN_MessageProcess cfg n s).CAN_rxbuf n).data 3 = (s.LPC_CAN.msg_ram (n + 1)).DB2 ∧
    ∀ k, 4 ≤ k → ((CAN_MessageProcess cfg n s).CAN_rxbuf n).data k = (s.CAN_rxbuf n).data k := by
  by_cases h : (s.LPC_CAN.msg_ram (n + 1)).ARB2 &&& ID_MTD = 0
  · simp [CAN_MessageProcess, IF2_wait_eq, write_IF2_CMDREQ, h, Function.update_apply]
    intro k hk
    have h0 : k ≠ 0 := by omega
    have h1 : k ≠ 1 := by omega
    have h2 : k ≠ 2 := by omega
    have h3 : k ≠ 3 := by omega
    simp [h0, h1, h2, h3]
  · simp [CAN_MessageProcess, IF2_wait_eq, write_IF2_CMDREQ, h, Function.update_apply]
    intro k hk
    have h0 : k ≠ 0 := by omega
    have h1 : k ≠ 1 := by omega
    have h2 : k ≠ 2 := by omega
    have h3 : k ≠ 3 := by omega
    simp [h0, h1, h2, h3]

/-- An error-free message interrupt for message number `slot + 1`, with no
further interrupt pending afterwards: the handler clears RXOK, copies the
message object into `CAN_rxbuf[slot]` and sets `CANRxDone[slot]`. -/
theorem CAN_IRQHandler_rx (cfg : Config) (slot : Nat) (hslot : slot < 32) (s : Driver)
    (hint : s.LPC_CAN.INT = slot + 1) (hlec : s.LPC_CAN.STAT &&& STAT_LEC = 0) :
    CAN_IRQHandler cfg [] s
      = { CAN_MessageProcess cfg slot
            { s with LPC_CAN := { s.LPC_CAN with STAT := s.LPC_CAN.STAT &&& not32 STAT_RXOK } } with
          CANRxDone := Function.update s.CANRxDone slot TRUE
          LPC_CAN :=
            { (CAN_MessageProcess cfg slot
                { s with LPC_CAN := { s.LPC_CAN with STAT := s.LPC_CAN.STAT &&& not32 STAT_RXOK } }).LPC_CAN with
              INT := 0 } } := by
  have h0 : s.LPC_CAN.INT ≠ 0 := by omega
  have h1 : s.LPC_CAN.INT &&& CAN_STATUS_INTERRUPT = 0 := by
    rw [hint]; interval_cases slot <;> decide
  have h2 : s.LPC_CAN.INT &&& 0x7FFF = slot + 1 := by
    rw [hint]; interval_cases slot <;> decide
  have h3 : 1 ≤ slot + 1 ∧ slot + 1 ≤ 32 := by omega
  simp [CAN_IRQHandler, CAN_IRQHandler_body, h0, h1, h2, h3, hlec, CAN_MessageProcess_flags]

theorem message_object_eq (a b : message_object) (hext : a.ext = b.ext) (hid : a.id = b.id)
    (hdlc : a.dlc = b.dlc) (hdata : ∀ k, a.data k = b.data k) : a = b := by
  cases a
  cases b
  simp only [message_object.mk.injEq]
  exact ⟨hext, hid, hdlc, funext hdata⟩

/-- C7: two error-free receive events for the same slot, handled by
`CAN_IRQHandler` one after the other with no `can_get_msg` in between
(`c1` and `c2` are the controller at the first and at the second event).
Afterwards `CAN_rxbuf[slot]` holds the tag, identifier, length and data words
that `CAN_MessageProcess` takes from the message object of the second event,
and is the entry that the second event alone would have left;
`CANRxDone[slot]` is set; the entries and flags of all other slots are those
from before the first event; and when no other slot was ready, the next
`can_get_msg` returns the frame decoded from that entry and the one after it
returns `NO_MSG_ERR`. -/
theorem rx_same_slot_overwrite (cfg : Config) (slot : Nat) (hslot : slot < MSG_OBJ_MAX)
    (s0 s1 s2 : Driver) (c1 c2 : LPC_CAN_TypeDef)
    (h1i : c1.INT = slot + 1) (h1e : c1.STAT &&& STAT_LEC = 0)
    (h2i : c2.INT = slot + 1) (h2e : c2.STAT &&& STAT_LEC = 0)
    (hs1 : s1 = CAN_IRQHandler cfg [] { s0 with LPC_CAN := c1 })
    (hs2 : s2 = CAN_IRQHandler cfg [] { s1 with LPC_CAN := c2 }) :
    (s2.CAN_rxbuf slot).ext
      = (if (c2.msg_ram (slot + 1)).ARB2 &&& ID_MTD ≠ 0 then cfg.CAN_EXT_MSG
          else cfg.CAN_STD_MSG) ∧
    (s2.CAN_rxbuf slot).id
      = (if (c2.msg_ram (slot + 1)).ARB2 &&& ID_MTD ≠ 0 then
          ((c2.msg_ram (slot + 1)).ARB1
            ||| (((c2.msg_ram (slot + 1)).ARB2 &&& 0x5FFF) <<< 16)) % 2 ^ 32
          else ((c2.msg_ram (slot + 1)).ARB2 &&& 0x1FFF) >>> 2) ∧
    (s2.CAN_rxbuf slot).dlc = (c2.msg_ram (slot + 1)).MCTRL &&& 0x000F ∧
    (s2.CAN_rxbuf slot).data 0 = (c2.msg_ram (slot + 1)).DA1 ∧
    (s2.CAN_rxbuf slot).data 1 = (c2.msg_ram (slot + 1)).DA2 ∧
    (s2.CAN_rxbuf slot).data 2 = (c2.msg_ram (slot + 1)).DB1 ∧
    (s2.CAN_rxbuf slot).data 3 = (c2.msg_ram (slot + 1)).DB2 ∧
    s2.CAN_rxbuf slot = (CAN_IRQHandler cfg [] { s0 with LPC_CAN := c2 }).CAN_rxbuf slot ∧
    s2.CANRxDone slot = TRUE ∧
    (∀ j, j ≠ slot → s2.CAN_rxbuf j = s0.CAN_rxbuf j ∧ s2.CANRxDone j = s0.CANRxDone j) ∧
    ((∀ j, j < MSG_OBJ_MAX → j ≠ slot → s0.CANRxDone j ≠ TRUE) →
      ∀ m m2 : can_msg,
        can_get_msg m s2
          = (Err.NO_ERR, (CAN_decode_packet slot m s2).1,
              { s2 with CANRxDone := Function.update s2.CANRxDone slot 0 }) ∧
        (CAN_decode_packet slot m s2).1.id = (s2.CAN_rxbuf slot).id ∧
        (CAN_decode_packet slot m s2).1.ext = (s2.CAN_rxbuf slot).ext ∧
        (∀ k, k < 8 → (CAN_decode_packet slot m s2).1.data k
          = ((s2.CAN_rxbuf slot).data (k / 2) / 256 ^ (k % 2)) % 256) ∧
        (can_get_msg m2 (can_get_msg m s2).2.2).1 = Err.NO_MSG_ERR) := by
  have hslot2 : slot < 32 := hslot
  rw [CAN_IRQHandler_rx cfg slot hslot2 _ h1i h1e] at hs1
  rw [CAN_IRQHandler_rx cfg slot hslot2 _ h2i h2e] at hs2
  have hbuf2 : s2.CAN_rxbuf
      = (CAN_MessageProcess cfg slot
          { s1 with LPC_CAN := { c2 with STAT := c2.STAT &&& not32 STAT_RXOK } }).CAN_rxbuf := by
    rw [hs2]
  have hE := CAN_MessageProcess_entry cfg slot
    { s1 with LPC_CAN := { c2 with STAT := c2.STAT &&& not32 STAT_RXOK } }
  have hE0 := CAN_MessageProcess_entry cfg slot
    { s0 with LPC_CAN := { c2 with STAT := c2.STAT &&& not32 STAT_RXOK } }
  have hE1 := CAN_MessageProcess_entry cfg slot
    { s0 with LPC_CAN := { c1 with STAT := c1.STAT &&& not32 STAT_RXOK } }
  rw [← hbuf2] at hE
  obtain ⟨e1, e2, e3, e4, e5, e6, e7, e8⟩ := hE
  obtain ⟨f1, f2, f3, f4, f5, f6, f7, f8⟩ := hE0
  have hflag2 : s2.CANRxDone = Function.update s1.CANRxDone slot TRUE := by rw [hs2]
  have hflag1 : s1.CANRxDone = Function.update s0.CANRxDone slot TRUE := by rw [hs1]
  have hother : ∀ j, j ≠ slot → s2.CAN_rxbuf j = s0.CAN_rxbuf j ∧
      s2.CANRxDone j = s0.CANRxDone j := by
    intro j hj
    constructor
    · rw [hbuf2, CAN_MessageProcess_other cfg slot j _ hj, hs1]
      exact CAN_MessageProcess_other cfg slot j _ hj
    · rw [hflag2, hflag1]; simp [Function.update_apply, hj]
  have hset : s2.CANRxDone slot = TRUE := by rw [hflag2]; simp
  refine ⟨e1, e2, e3, e4, e5, e6, e7, ?_, hset, hother, ?_⟩
  · rw [CAN_IRQHandler_rx cfg slot hslot2 _ h2i h2e]
    apply message_object_eq
    · rw [e1]; exact f1.symm
    · rw [e2]; exact f2.symm
    · rw [e3]; exact f3.symm
    · intro k
      by_cases hk : 4 ≤ k
      · have g1 := e8 k hk
        have g0 := f8 k hk
        have g2 := hE1.2.2.2.2.2.2.2 k hk
        simp only at g1 g0 g2 ⊢
        rw [g1, g0, hs1]
        exact g2
      · have hk4 : k < 4 := by omega
        interval_cases k
        · rw [e4]; exact f4.symm
        · rw [e5]; exact f5.symm
        · rw [e6]; exact f6.symm
        · rw [e7]; exact f7.symm
  · intro hnone m m2
    have hlow : ∀ k, k < slot → s2.CANRxDone k ≠ TRUE := by
      intro k hk
      rw [(hother k (by omega)).2]
      exact hnone k (by omega) (by omega)
    have hget := can_get_msg_first m s2 slot hslot hset hlow
    refine ⟨hget, rfl, rfl, fun k hk => CAN_decode_packet_data slot m s2 k hk, ?_⟩
    rw [hget]
    have hnone2 := can_get_msg_none m2
      { s2 with CANRxDone := Function.update s2.CANRxDone slot 0 } (by
        intro i hi
        by_cases his : i = slot
        · subst his; simp [TRUE]
        · simp only [Function.update_apply, his, if_false]
          rw [(hother i his).2]
          exact hnone i hi his)
    rw [hnone2]

theorem rx_same_slot_overwrite_witness :
    ((CAN_IRQHandler cfg16 []
      { CAN_IRQHandler cfg16 [] { Driver_zero with LPC_CAN := rx_event 0x21 0x1110 } with
        LPC_CAN := rx_event 0x22 0x5150 }).CAN_rxbuf 3).data 0 = 0x5150 :=
  (rx_same_slot_overwrite cfg16 3 (by decide) Driver_zero _ _
    (rx_event 0x21 0x1110) (rx_event 0x22 0x5150) rfl (by decide) rfl (by decide)
    rfl rfl).2.2.2.1

/-! ## Order of transmission: C1 -/

theorem CAN_Send_loop_cases (cfg : Config) (msg : can_msg) (n i : Nat) (c : LPC_CAN_TypeDef) :
    CAN_Send_loop cfg msg n i c = (Err.NO_MSG_ERR, c) ∨
    ∃ j, CAN_Send_loop cfg msg n i c = (Err.NO_ERR, CAN_Send_slot cfg msg j c) := by
  induction n generalizing i with
  | zero => exact Or.inl rfl
  | succ m ih =>
    rw [CAN_Send_loop]
    by_cases hf : buffer_free c i = true
    · exact Or.inr ⟨i, by simp [hf]⟩
    · simp only [hf]
      exact ih (i + 1)

theorem CAN_Send_cases (cfg : Config) (Pri : Nat) (msg : can_msg) (c : LPC_CAN_TypeDef) :
    CAN_Send cfg Pri msg c = (Err.NO_MSG_ERR, c) ∨
    ∃ j, CAN_Send cfg Pri msg c = (Err.NO_ERR, CAN_Send_slot cfg msg j c) :=
  CAN_Send_loop_cases cfg msg _ _ c

theorem CAN_Send_slot_xfers_length (cfg : Config) (msg : can_msg) (j : Nat)
    (c : LPC_CAN_TypeDef) :
    (CAN_Send_slot cfg msg j c).if1_xfers.length = c.if1_xfers.length + 1 := by
  have h : (CAN_Send_arb cfg msg c).if1_xfers = c.if1_xfers := by
    unfold CAN_Send_arb
    split
    · rfl
    · split <;> rfl
  simp [CAN_Send_slot, IF1_wait_eq, write_IF1_CMDREQ, h]

theorem copy_bytes_apply (src dst : Nat → Nat) (n i : Nat) :
    copy_bytes src n dst i = if i < n then src i else dst i := by
  induction n with
  | zero => simp [copy_bytes]
  | succ m ih =>
    rw [copy_bytes, Function.update_apply, ih]
    by_cases h1 : i = m
    · subst h1; simp
    · by_cases h2 : i < m
      · simp [h1, h2, Nat.lt_succ_of_lt h2]
      · have h3 : ¬ i < m + 1 := by omega
        simp [h1, h2, h3]

theorem queued_keys_append (a b : List Obs) :
    queued_keys (a ++ b) = queued_keys a ++ queued_keys b := by
  induction a with
  | nil => rfl
  | cons o os ih => cases o <;> simp [queued_keys, ih]

theorem drained_keys_append (a b : List Obs) :
    drained_keys (a ++ b) = drained_keys a ++ drained_keys b := by
  induction a with
  | nil => rfl
  | cons o os ih => cases o <;> simp [drained_keys, ih]

/-- A successful `enqueue_message` appends the frame to the queue contents. -/
theorem enqueue_message_keys (cfg : Config) (k : Nat) (hk : k ≤ 7)
    (hsize : cfg.CAN_TX_BUFFER_SIZE = 2 ^ k) (hmask : cfg.CAN_TX_BUFFER_MASK = 2 ^ k - 1)
    (msg : can_msg) (s : Driver) (hroom : s.tx_num_msgs < cfg.CAN_TX_BUFFER_SIZE) :
    (enqueue_message cfg msg s).1 = Err.NO_ERR ∧
    (enqueue_message cfg msg s).2.tx_buf_start = s.tx_buf_start ∧
    (enqueue_message cfg msg s).2.tx_num_msgs = s.tx_num_msgs + 1 ∧
    (enqueue_message cfg msg s).2.LPC_CAN = s.LPC_CAN ∧
    queue_keys cfg (enqueue_message cfg msg s).2 = queue_keys cfg s ++ [msg.key] := by
  have h128 : (2 : Nat) ^ k ≤ 128 := by
    calc (2 : Nat) ^ k ≤ 2 ^ 7 := Nat.pow_le_pow_right (by decide) hk
      _ = 128 := by decide
  have hpos : 0 < (2 : Nat) ^ k := Nat.two_pow_pos k
  have hnf : ¬ s.tx_num_msgs ≥ cfg.CAN_TX_BUFFER_SIZE := by omega
  rw [hsize] at hroom
  have hnf2 : ¬ s.tx_num_msgs ≥ 2 ^ k := by omega
  have hmod : ((s.tx_buf_start + s.tx_num_msgs) &&& cfg.CAN_TX_BUFFER_MASK) % 256
      = (s.tx_buf_start + s.tx_num_msgs) % 2 ^ k := by
    rw [hmask, Nat.and_pow_two_sub_one_eq_mod]
    have := Nat.mod_lt (s.tx_buf_start + s.tx_num_msgs) hpos
    omega
  have hcount : (s.tx_num_msgs + 1) % 256 = s.tx_num_msgs + 1 := by omega
  refine ⟨by simp [enqueue_message, hnf], by simp [enqueue_message, hnf],
    by simp [enqueue_message, hnf, hcount], by simp [enqueue_message, hnf], ?_⟩
  simp only [queue_keys, enqueue_message, hnf, hnf2, if_false, hmod, hcount, hsize]
  rw [List.range_succ, List.map_append]
  congr 1
  · apply List.map_congr_left
    intro j hj
    have hjn : j < s.tx_num_msgs := List.mem_range.mp hj
    have hne : (s.tx_buf_start + j) % 2 ^ k ≠ (s.tx_buf_start + s.tx_num_msgs) % 2 ^ k := by
      intro heq
      have h1 : j % 2 ^ k = s.tx_num_msgs % 2 ^ k := Nat.ModEq.add_left_cancel' s.tx_buf_start heq
      rw [Nat.mod_eq_of_lt (by omega), Nat.mod_eq_of_lt hroom] at h1
      omega
    simp [Function.update_apply, hne]
  · simp only [List.map_cons, List.map_nil, Function.update_same, can_msg.key]
    have hdata : List.map
        (copy_bytes msg.data 8
          (s.CAN_txbuf ((s.tx_buf_start + s.tx_num_msgs) % 2 ^ k)).data) (List.range 8)
        = List.map msg.data (List.range 8) := by
      apply List.map_congr_left
      intro i hi
      have hi8 : i < 8 := List.mem_range.mp hi
      simp [copy_bytes_apply, hi8]
    rw [hdata]

/-- A successful drain removes the oldest entry from the queue contents. -/
theorem drain_keys (cfg : Config) (k : Nat) (hk : k ≤ 7)
    (hsize : cfg.CAN_TX_BUFFER_SIZE = 2 ^ k) (hmask : cfg.CAN_TX_BUFFER_MASK = 2 ^ k - 1)
    (s : Driver) (c : LPC_CAN_TypeDef) (hstart : s.tx_buf_start < cfg.CAN_TX_BUFFER_SIZE)
    (hcount : s.tx_num_msgs ≤ cfg.CAN_TX_BUFFER_SIZE) (hne : s.tx_num_msgs ≠ 0) :
    queue_keys cfg s
      = (s.CAN_txbuf s.tx_buf_start).key ::
        queue_keys cfg
          { s with
            LPC_CAN := c
            tx_buf_start := ((s.tx_buf_start + 1) &&& cfg.CAN_TX_BUFFER_MASK) % 256
            tx_num_msgs := (s.tx_num_msgs + 255) % 256 } := by
  have h128 : (2 : Nat) ^ k ≤ 128 := by
    calc (2 : Nat) ^ k ≤ 2 ^ 7 := Nat.pow_le_pow_right (by decide) hk
      _ = 128 := by decide
  have hpos : 0 < (2 : Nat) ^ k := Nat.two_pow_pos k
  rw [hsize] at hstart hcount
  have hmod : ((s.tx_buf_start + 1) &&& cfg.CAN_TX_BUFFER_MASK) % 256
      = (s.tx_buf_start + 1) % 2 ^ k := by
    rw [hmask, Nat.and_pow_two_sub_one_eq_mod]
    have := Nat.mod_lt (s.tx_buf_start + 1) hpos
    omega
  obtain ⟨n, hn⟩ : ∃ n, s.tx_num_msgs = n + 1 := ⟨s.tx_num_msgs - 1, by omega⟩
  have hdec : (s.tx_num_msgs + 255) % 256 = n := by omega
  simp only [queue_keys, hmod, hdec, hsize]
  rw [hn, List.range_succ_eq_map, List.map_cons, List.map_map]
  congr 1
  · rw [Nat.add_zero, Nat.mod_eq_of_lt hstart]
  · apply List.map_congr_left
    intro j _
    simp only [Function.comp]
    rw [Nat.mod_add_mod]
    have hj : s.tx_buf_start + 1 + j = s.tx_buf_start + j.succ := by omega
    rw [hj]

theorem can_send_msg_cases (cfg : Config) (msg : can_msg) (priority : Nat) (s : Driver) :
    ∃ c0 : LPC_CAN_TypeDef, c0.if1_xfers = s.LPC_CAN.if1_xfers ∧
      (can_send_msg cfg msg priority s = enqueue_message cfg msg { s with LPC_CAN := c0 } ∨
       ∃ j, can_send_msg cfg msg priority s
         = (Err.NO_ERR, { s with LPC_CAN := CAN_Send_slot cfg msg j c0 })) := by
  by_cases hb : s.LPC_CAN.STAT &&& 0x80 ≠ 0
  · refine ⟨{ s.LPC_CAN with CNTL := s.LPC_CAN.CNTL &&& not32 0x1 }, rfl, ?_⟩
    rcases CAN_Send_cases cfg priority msg
      { s.LPC_CAN with CNTL := s.LPC_CAN.CNTL &&& not32 0x1 } with h | ⟨j, h⟩
    · left; simp [can_send_msg, hb, h]
    · right; exact ⟨j, by simp [can_send_msg, hb, h]⟩
  · refine ⟨s.LPC_CAN, rfl, ?_⟩
    rcases CAN_Send_cases cfg priority msg s.LPC_CAN with h | ⟨j, h⟩
    · left; simp [can_send_msg, hb, h]
    · right; exact ⟨j, by simp [can_send_msg, hb, h]⟩

theorem send_queued_messages_cases (cfg : Config) (s : Driver) :
    send_queued_messages cfg s = (Err.NO_MSG_ERR, s) ∨
    (s.tx_num_msgs ≠ 0 ∧ ∃ j, send_queued_messages cfg s
      = (Err.NO_ERR,
          { s with
            LPC_CAN := CAN_Send_slot cfg (s.CAN_txbuf s.tx_buf_start) j s.LPC_CAN
            tx_buf_start := ((s.tx_buf_start + 1) &&& cfg.CAN_TX_BUFFER_MASK) % 256
            tx_num_msgs := (s.tx_num_msgs + 255) % 256 })) := by
  by_cases h0 : s.tx_num_msgs = 0
  · left; simp [send_queued_messages, h0]
  · rcases CAN_Send_cases cfg 0 (s.CAN_txbuf s.tx_buf_start) s.LPC_CAN with h | ⟨j, h⟩
    · left; simp [send_queued_messages, h0, h]
    · right; exact ⟨h0, j, by simp [send_queued_messages, h0, h]⟩

/-- One step keeps the queue well-formed and changes its contents as the
observation of the step says. -/
theorem step_keys (cfg : Config) (k : Nat) (hk : k ≤ 7)
    (hsize : cfg.CAN_TX_BUFFER_SIZE = 2 ^ k) (hmask : cfg.CAN_TX_BUFFER_MASK = 2 ^ k - 1)
    (e : Event) (s : Driver) (hstart : s.tx_buf_start < cfg.CAN_TX_BUFFER_SIZE)
    (hcount : s.tx_num_msgs ≤ cfg.CAN_TX_BUFFER_SIZE) :
    (e.step cfg s).tx_buf_start < cfg.CAN_TX_BUFFER_SIZE ∧
    (e.step cfg s).tx_num_msgs ≤ cfg.CAN_TX_BUFFER_SIZE ∧
    queue_keys cfg s ++ queued_keys (observe cfg e s).toList
      = drained_keys (observe cfg e s).toList ++ queue_keys cfg (e.step cfg s) := by
  have h128 : (2 : Nat) ^ k ≤ 128 := by
    calc (2 : Nat) ^ k ≤ 2 ^ 7 := Nat.pow_le_pow_right (by decide) hk
      _ = 128 := by decide
  have hpos : 0 < (2 : Nat) ^ k := Nat.two_pow_pos k
  cases e with
  | send msg priority =>
    obtain ⟨c0, hc0, h | ⟨j, h⟩⟩ := can_send_msg_cases cfg msg priority s
    · by_cases hfull : s.tx_num_msgs ≥ cfg.CAN_TX_BUFFER_SIZE
      · have hres : can_send_msg cfg msg priority s
            = (Err.BUF_FULL_ERR, { s with LPC_CAN := c0 }) := by
          rw [h]; simp [enqueue_message, hfull]
        simp [Event.step, observe, hres, hc0, hstart, hcount, queue_keys, queued_keys,
          drained_keys]
      · obtain ⟨-, e2, e3, e4, e5⟩ := enqueue_message_keys cfg k hk hsize hmask msg
          { s with LPC_CAN := c0 } (by simpa using hfull)
        rw [← h] at e2 e3 e4 e5
        simp only at e2 e3 e4
        have hq : queue_keys cfg { s with LPC_CAN := c0 } = queue_keys cfg s := rfl
        rw [hq] at e5
        have hobs : observe cfg (Event.send msg priority) s = some (Obs.queued msg) := by
          simp [observe, e3, e4, hc0]
        simp only [Event.step, hobs, e2, e3, e5, Option.toList, queued_keys, drained_keys,
          List.nil_append]
        exact ⟨hstart, by omega, trivial⟩
    · have hlen := CAN_Send_slot_xfers_length cfg msg j c0
      have hobs : observe cfg (Event.send msg priority) s = some (Obs.programmed msg) := by
        simp [observe, h, hlen, hc0]
      simp only [Event.step, hobs, h, Option.toList, queued_keys, drained_keys,
        List.nil_append, List.append_nil]
      exact ⟨hstart, hcount, rfl⟩
  | poll =>
    rcases send_queued_messages_cases cfg s with h | ⟨hne, j, h⟩
    · have hobs : observe cfg Event.poll s = none := by
        simp [observe, can_poll, h]
      simp only [Event.step, can_poll, hobs, h, Option.toList, queued_keys, drained_keys,
        List.nil_append, List.append_nil]
      exact ⟨hstart, hcount, trivial⟩
    · have hlen := CAN_Send_slot_xfers_length cfg (s.CAN_txbuf s.tx_buf_start) j s.LPC_CAN
      have hobs : observe cfg Event.poll s
          = some (Obs.drained (s.CAN_txbuf s.tx_buf_start)) := by
        simp [observe, can_poll, h, hlen]
      have hd := drain_keys cfg k hk hsize hmask s
        (CAN_Send_slot cfg (s.CAN_txbuf s.tx_buf_start) j s.LPC_CAN) hstart hcount hne
      simp only [Event.step, can_poll, hobs, h, Option.toList, queued_keys, drained_keys,
        List.nil_append, List.append_nil, List.singleton_append]
      refine ⟨?_, ?_, hd⟩
      · rw [hsize, hmask, Nat.and_pow_two_sub_one_eq_mod]
        have := Nat.mod_lt (s.tx_buf_start + 1) hpos
        omega
      · rw [hsize] at hcount ⊢
        omega
  | hw f =>
    simp only [Event.step, observe, Option.toList, queued_keys, drained_keys, List.append_nil,
      List.nil_append]
    exact ⟨hstart, hcount, rfl⟩

theorem trace_keys (cfg : Config) (k : Nat) (hk : k ≤ 7)
    (hsize : cfg.CAN_TX_BUFFER_SIZE = 2 ^ k) (hmask : cfg.CAN_TX_BUFFER_MASK = 2 ^ k - 1)
    (evs : List Event) (s : Driver) (hstart : s.tx_buf_start < cfg.CAN_TX_BUFFER_SIZE)
    (hcount : s.tx_num_msgs ≤ cfg.CAN_TX_BUFFER_SIZE) :
    queue_keys cfg s ++ queued_keys (trace cfg evs s)
      = drained_keys (trace cfg evs s) ++ queue_keys cfg (run cfg evs s) := by
  induction evs generalizing s with
  | nil => simp [trace, run, queued_keys, drained_keys]
  | cons e es ih =>
    obtain ⟨h1, h2, h3⟩ := step_keys cfg k hk hsize hmask e s hstart hcount
    rw [trace, run, queued_keys_append, drained_keys_append, ← List.append_assoc, h3,
      List.append_assoc, ih _ h1 h2, List.append_assoc]

/-- C1, counterexample.  From the all-zero state eleven frames are sent and
occupy message objects 21 to 31, the slots `CAN_Send` scans.  Frame 0x101 is
then passed to `can_send_msg` and queued (12 frames outstanding).  Message
object 21 completes and frame 0x102 is passed to `can_send_msg`: it is
programmed into object 21 at once, while 0x101 still sits in the queue; 0x101
reaches object 22 only two polls later.  At no point are more than 12 frames
pending or queued.  The observations after the burst are: 0x101 queued,
0x102 programmed, 0x101 drained; and the transfer requests written after the
burst are B into object 21 (data word 0x2120), then A into object 22 (data
word 0x1110). -/
theorem direct_send_overtakes_queue :
    (∀ n ∈ (states cfg16 overtake_events Driver_zero).map
        (fun s => tx_pending_count s.LPC_CAN + s.tx_num_msgs), n ≤ 12) ∧
    ((trace cfg16 overtake_events Driver_zero).drop 11).map Obs.tag
      = [(1, 0x101), (0, 0x102), (2, 0x101)] ∧
    (((run cfg16 overtake_events Driver_zero).LPC_CAN.if1_xfers).drop 11).map
        (fun x => (x.msg_num, x.ARB2, x.DA1))
      = [(21, 0xA408, 0x2120), (22, 0xA404, 0x1110)] := by
  refine ⟨by decide, by decide, by decide⟩

theorem CAN_Send_loop_fst_congr (cfg : Config) (msg : can_msg) (n i : Nat)
    (c c2 : LPC_CAN_TypeDef) (h : ∀ j, buffer_free c j = buffer_free c2 j) :
    (CAN_Send_loop cfg msg n i c).1 = (CAN_Send_loop cfg msg n i c2).1 := by
  induction n generalizing i with
  | zero => rfl
  | succ m ih =>
    rw [CAN_Send_loop, CAN_Send_loop, ← h i]
    by_cases hf : buffer_free c i = true
    · simp [hf]
    · simp only [hf]
      exact ih (i + 1)

/-- When `CAN_Send` finds a free slot for the frame, `can_send_msg` writes
one transfer request, whatever the software queue holds. -/
theorem can_send_msg_immediate (cfg : Config) (msg : can_msg) (priority : Nat) (s : Driver)
    (hfree : (CAN_Send cfg priority msg s.LPC_CAN).1 = Err.NO_ERR) :
    (can_send_msg cfg msg priority s).2.LPC_CAN.if1_xfers.length
      = s.LPC_CAN.if1_xfers.length + 1 := by
  have hkey : ∀ c0 : LPC_CAN_TypeDef, c0.if1_xfers = s.LPC_CAN.if1_xfers →
      (∀ j, buffer_free s.LPC_CAN j = buffer_free c0 j) →
      ∃ j, CAN_Send cfg priority msg c0 = (Err.NO_ERR, CAN_Send_slot cfg msg j c0) := by
    intro c0 _ hb
    have h1 : (CAN_Send cfg priority msg c0).1 = Err.NO_ERR := by
      unfold CAN_Send at hfree ⊢
      rw [← CAN_Send_loop_fst_congr cfg msg _ _ s.LPC_CAN c0 hb]
      exact hfree
    rcases CAN_Send_cases cfg priority msg c0 with h | h
    · rw [h] at h1; cases h1
    · exact h
  by_cases hb : s.LPC_CAN.STAT &&& 0x80 ≠ 0
  · obtain ⟨j, hj⟩ := hkey { s.LPC_CAN with CNTL := s.LPC_CAN.CNTL &&& not32 0x1 } rfl
      (fun _ => rfl)
    have hres : can_send_msg cfg msg priority s
        = (Err.NO_ERR,
            { s with
              LPC_CAN := CAN_Send_slot cfg msg j
                { s.LPC_CAN with CNTL := s.LPC_CAN.CNTL &&& not32 0x1 } }) := by
      simp [can_send_msg, hb, hj]
    rw [hres]
    exact CAN_Send_slot_xfers_length cfg msg j
      { s.LPC_CAN with CNTL := s.LPC_CAN.CNTL &&& not32 0x1 }
  · obtain ⟨j, hj⟩ := hkey s.LPC_CAN rfl (fun _ => rfl)
    have hres : can_send_msg cfg msg priority s
        = (Err.NO_ERR, { s with LPC_CAN := CAN_Send_slot cfg msg j s.LPC_CAN }) := by
      simp [can_send_msg, hb, hj]
    rw [hres]
    exact CAN_Send_slot_xfers_length cfg msg j s.LPC_CAN

/-- C1, as amended: for every sequence of `can_send_msg` calls, `can_poll`
calls and register changes by the controller, starting with an empty queue
(capacity a power of two not above 128, mask = capacity - 1): a call of
`can_send_msg` either writes exactly one transfer request and leaves the
queue untouched, or writes none, so that a frame reaches the controller at
most once; when `CAN_Send` finds a free slot the frame is programmed by that
very call, whatever the queue holds; and the frames that `can_poll` hands to
`CAN_Send` are, in identifier, payload and length, the first of the frames
that `can_send_msg` queued, in the order in which they were queued. -/
theorem queue_hand_over_fifo (cfg : Config) (k : Nat) (hk : k ≤ 7)
    (hsize : cfg.CAN_TX_BUFFER_SIZE = 2 ^ k) (hmask : cfg.CAN_TX_BUFFER_MASK = 2 ^ k - 1)
    (s0 : Driver) (hempty : s0.tx_num_msgs = 0)
    (hstart : s0.tx_buf_start < cfg.CAN_TX_BUFFER_SIZE) (evs : List Event) :
    (∀ (s : Driver) (msg : can_msg) (priority : Nat),
      ((can_send_msg cfg msg priority s).2.LPC_CAN.if1_xfers.length
          = s.LPC_CAN.if1_xfers.length + 1 ∧
        (can_send_msg cfg msg priority s).2.tx_num_msgs = s.tx_num_msgs ∧
        (can_send_msg cfg msg priority s).2.tx_buf_start = s.tx_buf_start ∧
        (can_send_msg cfg msg priority s).2.CAN_txbuf = s.CAN_txbuf) ∨
      (can_send_msg cfg msg priority s).2.LPC_CAN.if1_xfers = s.LPC_CAN.if1_xfers) ∧
    (∀ (s : Driver) (msg : can_msg) (priority : Nat),
      (CAN_Send cfg priority msg s.LPC_CAN).1 = Err.NO_ERR →
      (can_send_msg cfg msg priority s).2.LPC_CAN.if1_xfers.length
        = s.LPC_CAN.if1_xfers.length + 1) ∧
    drained_keys (trace cfg evs s0) <+: queued_keys (trace cfg evs s0) := by
  refine ⟨?_, fun s msg priority h => can_send_msg_immediate cfg msg priority s h, ?_⟩
  · intro s msg priority
    obtain ⟨c0, hc0, h | ⟨j, h⟩⟩ := can_send_msg_cases cfg msg priority s
    · right
      rw [h, ← hc0]
      unfold enqueue_message
      split <;> rfl
    · left
      rw [h]
      exact ⟨by rw [← hc0]; exact CAN_Send_slot_xfers_length cfg msg j c0, rfl, rfl, rfl⟩
  · have h := trace_keys cfg k hk hsize hmask evs s0 hstart (by omega)
    have h0 : queue_keys cfg s0 = [] := by simp [queue_keys, hempty]
    rw [h0, List.nil_append] at h
    exact ⟨_, h.symm⟩

theorem queue_hand_over_fifo_witness :
    drained_keys (trace cfg16 overtake_events Driver_zero)
      <+: queued_keys (trace cfg16 overtake_events Driver_zero) :=
  (queue_hand_over_fifo cfg16 4 (by decide) rfl rfl Driver_zero rfl (by decide)
    overtake_events).2.2

/-! ## Outcomes of `can_send_msg`: C11 -/

/-- The `CAN_Send` call inside `can_send_msg` is made on a controller `c0`
that differs from the one before the call at most in `CNTL`; it finds a slot
exactly when `CAN_Send` on the controller before the call does. -/
theorem can_send_msg_split (cfg : Config) (msg : can_msg) (priority : Nat) (s : Driver) :
    ∃ c0 : LPC_CAN_TypeDef,
      (CAN_Send cfg priority msg c0).1 = (CAN_Send cfg priority msg s.LPC_CAN).1 ∧
      (((CAN_Send cfg priority msg c0).1 = Err.NO_MSG_ERR ∧
          can_send_msg cfg msg priority s = enqueue_message cfg msg { s with LPC_CAN := c0 }) ∨
        ((CAN_Send cfg priority msg c0).1 = Err.NO_ERR ∧
          ∃ c1, can_send_msg cfg msg priority s = (Err.NO_ERR, { s with LPC_CAN := c1 }))) := by
  by_cases hb : s.LPC_CAN.STAT &&& 0x80 ≠ 0
  · refine ⟨{ s.LPC_CAN with CNTL := s.LPC_CAN.CNTL &&& not32 0x1 },
      CAN_Send_loop_fst_congr cfg msg _ _ _ _ (fun _ => rfl), ?_⟩
    rcases CAN_Send_cases cfg priority msg
      { s.LPC_CAN with CNTL := s.LPC_CAN.CNTL &&& not32 0x1 } with h | ⟨j, h⟩
    · left; exact ⟨by rw [h], by simp [can_send_msg, hb, h]⟩
    · right
      exact ⟨by rw [h], CAN_Send_slot cfg msg j
        { s.LPC_CAN with CNTL := s.LPC_CAN.CNTL &&& not32 0x1 },
        by simp [can_send_msg, hb, h]⟩
  · refine ⟨s.LPC_CAN, rfl, ?_⟩
    rcases CAN_Send_cases cfg priority msg s.LPC_CAN with h | ⟨j, h⟩
    · left; exact ⟨by rw [h], by simp [can_send_msg, hb, h]⟩
    · right
      exact ⟨by rw [h], CAN_Send_slot cfg msg j s.LPC_CAN, by simp [can_send_msg, hb, h]⟩

/-- C11: with a queue capacity that the `u08` counter can hold
(`CAN_TX_BUFFER_SIZE ≤ 255`), for every frame and every state:
when `CAN_Send` finds a free slot, `can_send_msg` returns `NO_ERR` and
`tx_buf_start`, `tx_num_msgs` and `CAN_txbuf` are unchanged; when it finds
none and the queue is not full, `can_send_msg` returns `NO_ERR`,
`tx_num_msgs` grows by exactly one and `tx_buf_start` is unchanged; when it
finds none and the queue is full, `can_send_msg` returns `BUF_FULL_ERR` and
the queue is unchanged.  So `can_send_msg` fails exactly when `CAN_Send`
finds no free slot and the queue is full. -/
theorem can_send_msg_outcomes (cfg : Config) (hcap : cfg.CAN_TX_BUFFER_SIZE ≤ 255)
    (msg : can_msg) (priority : Nat) (s : Driver) :
    ((CAN_Send cfg priority msg s.LPC_CAN).1 = Err.NO_ERR →
      (can_send_msg cfg msg priority s).1 = Err.NO_ERR ∧
      (can_send_msg cfg msg priority s).2.tx_buf_start = s.tx_buf_start ∧
      (can_send_msg cfg msg priority s).2.tx_num_msgs = s.tx_num_msgs ∧
      (can_send_msg cfg msg priority s).2.CAN_txbuf = s.CAN_txbuf) ∧
    ((CAN_Send cfg priority msg s.LPC_CAN).1 = Err.NO_MSG_ERR →
      s.tx_num_msgs < cfg.CAN_TX_BUFFER_SIZE →
      (can_send_msg cfg msg priority s).1 = Err.NO_ERR ∧
      (can_send_msg cfg msg priority s).2.tx_num_msgs = s.tx_num_msgs + 1 ∧
      (can_send_msg cfg msg priority s).2.tx_buf_start = s.tx_buf_start) ∧
    ((CAN_Send cfg priority msg s.LPC_CAN).1 = Err.NO_MSG_ERR →
      s.tx_num_msgs ≥ cfg.CAN_TX_BUFFER_SIZE →
      (can_send_msg cfg msg priority s).1 = Err.BUF_FULL_ERR ∧
      (can_send_msg cfg msg priority s).2.tx_buf_start = s.tx_buf_start ∧
      (can_send_msg cfg msg priority s).2.tx_num_msgs = s.tx_num_msgs ∧
      (can_send_msg cfg msg priority s).2.CAN_txbuf = s.CAN_txbuf) ∧
    ((can_send_msg cfg msg priority s).1 ≠ Err.NO_ERR ↔
      (CAN_Send cfg priority msg s.LPC_CAN).1 = Err.NO_MSG_ERR ∧
      s.tx_num_msgs ≥ cfg.CAN_TX_BUFFER_SIZE) := by
  obtain ⟨c0, hc, ⟨h1, h2⟩ | ⟨h1, c1, h2⟩⟩ := can_send_msg_split cfg msg priority s
  · rw [hc] at h1
    by_cases hfull : s.tx_num_msgs ≥ cfg.CAN_TX_BUFFER_SIZE
    · have hres : can_send_msg cfg msg priority s
          = (Err.BUF_FULL_ERR, { s with LPC_CAN := c0 }) := by
        rw [h2]; simp [enqueue_message, hfull]
      rw [hres, h1]
      refine ⟨?_, ?_, ?_, ?_, ?_⟩
      · intro h; cases h
      · intro _ h; omega
      · intro _ _; exact ⟨rfl, rfl, rfl, rfl⟩
      · intro _; exact ⟨rfl, hfull⟩
      · intro _ h; cases h
    · have hmod : (s.tx_num_msgs + 1) % 256 = s.tx_num_msgs + 1 := by omega
      have hres : (can_send_msg cfg msg priority s).1 = Err.NO_ERR ∧
          (can_send_msg cfg msg priority s).2.tx_num_msgs = s.tx_num_msgs + 1 ∧
          (can_send_msg cfg msg priority s).2.tx_buf_start = s.tx_buf_start := by
        rw [h2]; simp [enqueue_message, hfull, hmod]
      rw [h1]
      refine ⟨?_, ?_, ?_, ?_, ?_⟩
      · intro h; cases h
      · intro _ _; exact hres
      · intro _ h; exact absurd h hfull
      · intro h; exact absurd hres.1 h
      · intro h; exact absurd h.2 hfull
  · rw [hc] at h1
    rw [h2, h1]
    refine ⟨?_, ?_, ?_, ?_, ?_⟩
    · intro _; exact ⟨rfl, rfl, rfl, rfl⟩
    · intro h; cases h
    · intro h; cases h
    · intro h; exact absurd rfl h
    · intro h; cases h.1

theorem can_send_msg_outcomes_witness :
    (can_send_msg cfg16 (frame 0x101 0 0x10) 0
        { Driver_zero with
          LPC_CAN := { LPC_CAN_zero with TXREQ2 := 0x7FF0 }
          tx_num_msgs := 16 }).1 = Err.BUF_FULL_ERR :=
  ((can_send_msg_outcomes cfg16 (by decide) (frame 0x101 0 0x10) 0
      { Driver_zero with
        LPC_CAN := { LPC_CAN_zero with TXREQ2 := 0x7FF0 }
        tx_num_msgs := 16 }).2.2.1 (by decide) (by decide)).1

/-! ## Data words written by `CAN_Send`: C14 -/

/-- C14: when `CAN_Send` programs a slot with a frame whose payload bytes
`b[0..7]` are below 256, the data registers hold
`IF1_DA1 = b0 + 256*b1`, `IF1_DA2 = b2 + 256*b3`, `IF1_DB1 = b4 + 256*b5`,
`IF1_DB2 = b6 + 256*b7`, each below `2^16`. -/
theorem CAN_Send_data_words (cfg : Config) (Pri : Nat) (msg : can_msg) (c : LPC_CAN_TypeDef)
    (hbytes : ∀ k, k < 8 → msg.data k < 256)
    (hsent : (CAN_Send cfg Pri msg c).1 = Err.NO_ERR) :
    (CAN_Send cfg Pri msg c).2.IF1_DA1 = msg.data 0 + 256 * msg.data 1 ∧
    (CAN_Send cfg Pri msg c).2.IF1_DA2 = msg.data 2 + 256 * msg.data 3 ∧
    (CAN_Send cfg Pri msg c).2.IF1_DB1 = msg.data 4 + 256 * msg.data 5 ∧
    (CAN_Send cfg Pri msg c).2.IF1_DB2 = msg.data 6 + 256 * msg.data 7 ∧
    (CAN_Send cfg Pri msg c).2.IF1_DA1 < 2 ^ 16 ∧
    (CAN_Send cfg Pri msg c).2.IF1_DA2 < 2 ^ 16 ∧
    (CAN_Send cfg Pri msg c).2.IF1_DB1 < 2 ^ 16 ∧
    (CAN_Send cfg Pri msg c).2.IF1_DB2 < 2 ^ 16 := by
  obtain ⟨j, -, -, -, -, hj⟩ := CAN_Send_loop_ok cfg msg _ _ c hsent
  have hj2 : (CAN_Send cfg Pri msg c).2 = CAN_Send_slot cfg msg j c := by
    unfold CAN_Send; rw [hj]
  rw [hj2, CAN_Send_slot_DA1, CAN_Send_slot_DA2, CAN_Send_slot_DB1, CAN_Send_slot_DB2]
  have b0 := hbytes 0 (by omega)
  have b1 := hbytes 1 (by omega)
  have b2 := hbytes 2 (by omega)
  have b3 := hbytes 3 (by omega)
  have b4 := hbytes 4 (by omega)
  have b5 := hbytes 5 (by omega)
  have b6 := hbytes 6 (by omega)
  have b7 := hbytes 7 (by omega)
  simp only [memcpy_u32, Nat.zero_add, Nat.reduceAdd, Nat.reducePow]
  refine ⟨?_, ?_, ?_, ?_, ?_, ?_, ?_, ?_⟩ <;> omega

theorem CAN_Send_data_words_witness :
    (CAN_Send cfg16 0 (frame 5 1 0x10) LPC_CAN_zero).2.IF1_DB1 = 0x14 + 256 * 0x15 :=
  (CAN_Send_data_words cfg16 0 (frame 5 1 0x10) LPC_CAN_zero
    (by intro k hk; simp only [frame]; omega) (by decide)).2.2.1

/-! ## Error-warning interrupts: C19 -/

/-- C19: a status interrupt with the error-warning bit set makes one run of
`CAN_IRQHandler` (whatever the controller would do next) increase `EWarnCnt`
by one modulo `2^32`; the controller registers, `CNTL` among them, `BOffCnt`,
the shadow buffer and the ready flags are unchanged. -/
theorem CAN_IRQHandler_warning_only (cfg : Config)
    (hw : List (LPC_CAN_TypeDef → LPC_CAN_TypeDef)) (s : Driver)
    (hint : s.LPC_CAN.INT &&& CAN_STATUS_INTERRUPT ≠ 0)
    (hwarn : s.LPC_CAN.STAT &&& STAT_EWARN ≠ 0) :
    (CAN_IRQHandler cfg hw s).EWarnCnt = (s.EWarnCnt + 1) % 2 ^ 32 ∧
    (CAN_IRQHandler cfg hw s).LPC_CAN = s.LPC_CAN ∧
    (CAN_IRQHandler cfg hw s).BOffCnt = s.BOffCnt ∧
    (CAN_IRQHandler cfg hw s).CAN_rxbuf = s.CAN_rxbuf ∧
    (CAN_IRQHandler cfg hw s).CANRxDone = s.CANRxDone := by
  rw [CAN_IRQHandler_ewarn cfg hw s hint hwarn]
  exact ⟨rfl, rfl, rfl, rfl, rfl⟩

theorem CAN_IRQHandler_warning_only_witness :
    (CAN_IRQHandler cfg16 []
      { Driver_zero with
        LPC_CAN := { LPC_CAN_zero with INT := 0x8000, STAT := 0x40, CNTL := 0x0E }
        EWarnCnt := 0xFFFFFFFF }).EWarnCnt = (0xFFFFFFFF + 1) % 2 ^ 32 :=
  (CAN_IRQHandler_warning_only cfg16 []
    { Driver_zero with
      LPC_CAN := { LPC_CAN_zero with INT := 0x8000, STAT := 0x40, CNTL := 0x0E }
      EWarnCnt := 0xFFFFFFFF } (by decide) (by decide)).1

/-! ## Message interrupts with an error flagged: C18 -/

/-- One pass of the handler loop changes the shadow buffer and the ready
flags at index `msg_no - 1` at most, and not at all unless the pass handles a
message interrupt with no error flagged and `msg_no` in 1..32. -/
theorem CAN_IRQHandler_body_frame (cfg : Config) (s : Driver) (k : Nat)
    (h : ¬ (s.LPC_CAN.INT &&& CAN_STATUS_INTERRUPT = 0 ∧ s.LPC_CAN.STAT &&& STAT_LEC = 0 ∧
      1 ≤ s.LPC_CAN.INT &&& 0x7FFF ∧ s.LPC_CAN.INT &&& 0x7FFF ≤ 32 ∧
      k = (s.LPC_CAN.INT &&& 0x7FFF) - 1)) :
    (CAN_IRQHandler_body cfg s).1.CAN_rxbuf k = s.CAN_rxbuf k ∧
    (CAN_IRQHandler_body cfg s).1.CANRxDone k = s.CANRxDone k := by
  unfold CAN_IRQHandler_body
  by_cases h1 : s.LPC_CAN.INT &&& CAN_STATUS_INTERRUPT = 0
  · by_cases h2 : s.LPC_CAN.STAT &&& STAT_LEC = 0
    · by_cases h3 : 1 ≤ s.LPC_CAN.INT &&& 0x7FFF ∧ s.LPC_CAN.INT &&& 0x7FFF ≤ 32
      · have hk : k ≠ (s.LPC_CAN.INT &&& 0x7FFF) - 1 := fun hk => h ⟨h1, h2, h3.1, h3.2, hk⟩
        simp only [h1, h2, h3, ne_eq, not_true_eq_false, if_false, if_true, ge_iff_le,
          and_self, CAN_MessageProcess_flags, Function.update_apply, hk]
        exact ⟨CAN_MessageProcess_other cfg _ k _ hk, trivial⟩
      · simp [h1, h2, h3]
    · simp [h1, h2]
  · by_cases h4 : s.LPC_CAN.STAT &&& STAT_EWARN = 0
    · by_cases h5 : s.LPC_CAN.STAT &&& STAT_BOFF = 0
      · simp [h1, h4, h5]
      · simp [h1, h4, h5]
    · simp [h1, h4]

/-- C18: a message-object interrupt (`INT` non-zero, status bit clear)
handled while `STAT & STAT_LEC` is non-zero: the pass of `CAN_IRQHandler`
that handles it, and the whole run when it is the only event, writes 0 to
`STAT` and leaves `CAN_rxbuf` and `CANRxDone` unchanged.  And a pass changes
`CAN_rxbuf[k]` or `CANRxDone[k]` only if it handles a message interrupt with
no error flagged, with `msg_no = INT & 0x7FFF` in 1..32 and `k = msg_no - 1`. -/
theorem CAN_IRQHandler_error_event (cfg : Config) (s : Driver) :
    (s.LPC_CAN.INT ≠ 0 → s.LPC_CAN.INT &&& CAN_STATUS_INTERRUPT = 0 →
      s.LPC_CAN.STAT &&& STAT_LEC ≠ 0 →
      (CAN_IRQHandler_body cfg s).1.LPC_CAN.STAT = 0 ∧
      (CAN_IRQHandler_body cfg s).1.CAN_rxbuf = s.CAN_rxbuf ∧
      (CAN_IRQHandler_body cfg s).1.CANRxDone = s.CANRxDone ∧
      (CAN_IRQHandler cfg [] s).LPC_CAN.STAT = 0 ∧
      (CAN_IRQHandler cfg [] s).CAN_rxbuf = s.CAN_rxbuf ∧
      (CAN_IRQHandler cfg [] s).CANRxDone = s.CANRxDone) ∧
    (∀ k, ((CAN_IRQHandler_body cfg s).1.CAN_rxbuf k ≠ s.CAN_rxbuf k ∨
        (CAN_IRQHandler_body cfg s).1.CANRxDone k ≠ s.CANRxDone k) →
      s.LPC_CAN.INT &&& CAN_STATUS_INTERRUPT = 0 ∧ s.LPC_CAN.STAT &&& STAT_LEC = 0 ∧
      1 ≤ s.LPC_CAN.INT &&& 0x7FFF ∧ s.LPC_CAN.INT &&& 0x7FFF ≤ 32 ∧
      k = (s.LPC_CAN.INT &&& 0x7FFF) - 1) := by
  constructor
  · intro h0 h1 h2
    have hbody : CAN_IRQHandler_body cfg s
        = ({ s with LPC_CAN := { s.LPC_CAN with STAT := 0 } }, false) := by
      simp [CAN_IRQHandler_body, h1, h2]
    have hrun : CAN_IRQHandler cfg [] s
        = { s with LPC_CAN := { s.LPC_CAN with STAT := 0, INT := 0 } } := by
      simp [CAN_IRQHandler, h0, hbody]
    rw [hbody, hrun]
    exact ⟨rfl, rfl, rfl, rfl, rfl, rfl⟩
  · intro k hchg
    by_contra hno
    have hsame := CAN_IRQHandler_body_frame cfg s k hno
    rcases hchg with hc | hc
    · exact hc hsame.1
    · exact hc hsame.2

theorem CAN_IRQHandler_error_event_witness :
    (CAN_IRQHandler cfg16 []
      { Driver_zero with LPC_CAN := { rx_event 0x21 0x1110 with STAT := 0x13 } }).CAN_rxbuf
      = Driver_zero.CAN_rxbuf :=
  ((CAN_IRQHandler_error_event cfg16
    { Driver_zero with LPC_CAN := { rx_event 0x21 0x1110 with STAT := 0x13 } }).1
    (by decide) (by decide) (by decide)).2.2.2.2.1

/-! ## Message-object numbers used for reception and transmission: C12, C17 -/

theorem CAN_set_up_filter_request (cfg : Config) (msg_id filter_mask filter_addr ext : Nat)
    (c : LPC_CAN_TypeDef) :
    (CAN_set_up_filter cfg msg_id filter_mask filter_addr ext c).IF1_CMDREQ = msg_id + 1 ∧
    (CAN_set_up_filter cfg msg_id filter_mask filter_addr ext c).if1_xfers.map Xfer.msg_num
      = c.if1_xfers.map Xfer.msg_num ++ [msg_id + 1] := by
  unfold CAN_set_up_filter
  split <;> simp [IF1_wait_eq, write_IF1_CMDREQ]

/-- Flag `j` is the lowest clear in-use flag below `RECV_BUFF_DIVIDE`:
`can_register_id` returns `NO_ERR`, sets flag `j` and no other, and the
message number it writes to `IF1_CMDREQ` is `j + 2`. -/
theorem can_register_id_object (cfg : Config) (mask data priority ext j : Nat) (s : Driver)
    (hj : j < RECV_BUFF_DIVIDE) (hfree : s.recv_buf_used j = 0)
    (hused : ∀ k, k < j → s.recv_buf_used k ≠ 0) :
    (can_register_id cfg mask data priority ext s).1 = Err.NO_ERR ∧
    (can_register_id cfg mask data priority ext s).2.recv_buf_used
      = Function.update s.recv_buf_used j 1 ∧
    (can_register_id cfg mask data priority ext s).2.LPC_CAN.IF1_CMDREQ = j + 2 ∧
    (can_register_id cfg mask data priority ext s).2.LPC_CAN.if1_xfers.map Xfer.msg_num
      = s.LPC_CAN.if1_xfers.map Xfer.msg_num ++ [j + 2] := by
  rw [can_register_id_first cfg mask data priority ext j s hj hfree hused]
  have h := CAN_set_up_filter_request cfg (j + 1) mask data ext (irq_off s).LPC_CAN
  refine ⟨rfl, rfl, ?_, ?_⟩
  · simpa [irq_on] using h.1
  · simpa [irq_on, irq_off] using h.2

/-- C17, at the failing input: all in-use flags clear, so the lowest clear
flag is `i = 0`.  `can_register_id` returns `NO_ERR` and sets
`recv_buf_used[0]` only, but the message number it writes to `IF1_CMDREQ` is
2, not `i + 1 = 1`: it passes `i + 1` to `CAN_set_up_filter`, which adds 1
once more.  A frame accepted by this filter raises message number 2, which
the interrupt path stores at shadow index 1. -/
theorem can_register_id_off_by_one :
    (can_register_id cfg16 0x7FF 0x123 0 0 Driver_zero).1 = Err.NO_ERR ∧
    (can_register_id cfg16 0x7FF 0x123 0 0 Driver_zero).2.recv_buf_used
      = Function.update Driver_zero.recv_buf_used 0 1 ∧
    (can_register_id cfg16 0x7FF 0x123 0 0 Driver_zero).2.LPC_CAN.IF1_CMDREQ = 2 ∧
    (can_register_id cfg16 0x7FF 0x123 0 0 Driver_zero).2.LPC_CAN.if1_xfers.map Xfer.msg_num
      = [2] :=
  can_register_id_object cfg16 0x7FF 0x123 0 0 0 Driver_zero (by decide) rfl
    (fun k hk => absurd hk (Nat.not_lt_zero k))

/-- C12, at the failing input: twenty calls of `can_register_id` from the
all-zero state write the message numbers 2 to 21 to `IF1_CMDREQ`; the last
request programs message object 21 as a receive object (`MCTRL` = UMSK, RXIE,
EOB, DLC 8 = 0x1488).  `CAN_Send` on the same controller, with no
transmission pending, then writes message number 21 as well, now as a
transmit object (`MCTRL` = UMSK, TXRQ, EOB, DLC 8 = 0x1188). -/
theorem rx_tx_regions_overlap :
    (can_register_id_n cfg16 (fun _ => (0x7FF, 0x123, 0, 0)) 20
        Driver_zero).LPC_CAN.if1_xfers.map Xfer.msg_num
      = [2, 3, 4, 5, 6, 7, 8, 9, 10, 11, 12, 13, 14, 15, 16, 17, 18, 19, 20, 21] ∧
    (((CAN_Send cfg16 0 (frame 0x101 0 0x10)
        (can_register_id_n cfg16 (fun _ => (0x7FF, 0x123, 0, 0)) 20
          Driver_zero).LPC_CAN).2.if1_xfers).drop 19).map (fun x => (x.msg_num, x.MCTRL))
      = [(21, 0x1488), (21, 0x1188)] := by
  refine ⟨by decide, by decide⟩

/-! ## The queued copy of a frame: C13 -/

/-- A successful `enqueue_message` writes the entry at
`(tx_buf_start + tx_num_msgs) & CAN_TX_BUFFER_MASK`: identifier, payload
bytes 0 to 7 and length are the caller's, the tag `ext` is what the entry
held before. -/
theorem enqueue_message_entry (cfg : Config) (msg : can_msg) (s : Driver)
    (hroom : s.tx_num_msgs < cfg.CAN_TX_BUFFER_SIZE) :
    ((enqueue_message cfg msg s).2.CAN_txbuf
        (((s.tx_buf_start + s.tx_num_msgs) &&& cfg.CAN_TX_BUFFER_MASK) % 256)).id = msg.id ∧
    (∀ k, k < 8 → ((enqueue_message cfg msg s).2.CAN_txbuf
        (((s.tx_buf_start + s.tx_num_msgs) &&& cfg.CAN_TX_BUFFER_MASK) % 256)).data k
          = msg.data k) ∧
    ((enqueue_message cfg msg s).2.CAN_txbuf
        (((s.tx_buf_start + s.tx_num_msgs) &&& cfg.CAN_TX_BUFFER_MASK) % 256)).length
      = msg.length ∧
    ((enqueue_message cfg msg s).2.CAN_txbuf
        (((s.tx_buf_start + s.tx_num_msgs) &&& cfg.CAN_TX_BUFFER_MASK) % 256)).ext
      = (s.CAN_txbuf
        (((s.tx_buf_start + s.tx_num_msgs) &&& cfg.CAN_TX_BUFFER_MASK) % 256)).ext := by
  have hnf : ¬ s.tx_num_msgs ≥ cfg.CAN_TX_BUFFER_SIZE := by omega
  refine ⟨by simp [enqueue_message, hnf], ?_, by simp [enqueue_message, hnf],
    by simp [enqueue_message, hnf]⟩
  intro k hk
  simp [enqueue_message, hnf, copy_bytes_apply, hk]

/-- C13, at the failing input: an extended frame (`ext = CAN_EXT_MSG = 1`)
enqueued into the empty all-zero queue.  `enqueue_message` returns `NO_ERR`
and the entry at position 0 has the caller's identifier and length, but its
tag is still 0 (`CAN_STD_MSG`): `ext` is not copied.  `send_queued_messages`
then programs the entry as a standard frame (`ID_MTD` clear in `IF1_ARB2`),
whereas `CAN_Send` on the caller's frame sets `ID_MTD`. -/
theorem enqueue_message_drops_tag :
    (enqueue_message cfg16 (frame 0x12345 1 0x10) Driver_zero).1 = Err.NO_ERR ∧
    ((enqueue_message cfg16 (frame 0x12345 1 0x10) Driver_zero).2.CAN_txbuf 0).id = 0x12345 ∧
    ((enqueue_message cfg16 (frame 0x12345 1 0x10) Driver_zero).2.CAN_txbuf 0).length = 8 ∧
    (frame 0x12345 1 0x10).ext = 1 ∧
    ((enqueue_message cfg16 (frame 0x12345 1 0x10) Driver_zero).2.CAN_txbuf 0).ext = 0 ∧
    (send_queued_messages cfg16
      (enqueue_message cfg16 (frame 0x12345 1 0x10) Driver_zero).2).1 = Err.NO_ERR ∧
    (send_queued_messages cfg16
      (enqueue_message cfg16 (frame 0x12345 1 0x10) Driver_zero).2).2.LPC_CAN.IF1_ARB2
        &&& ID_MTD = 0 ∧
    (CAN_Send cfg16 0 (frame 0x12345 1 0x10) LPC_CAN_zero).2.IF1_ARB2 &&& ID_MTD = ID_MTD := by
  refine ⟨by decide, by decide, by decide, by decide, by decide, by decide, by decide,
    by decide⟩

/-! ## The identifier stored by `CAN_MessageProcess`: C15 -/

theorem testBit_of_and_two_pow_ne_zero (y i : Nat) (h : y &&& 2 ^ i ≠ 0) :
    y.testBit i = true := by
  by_contra hb
  apply h
  apply Nat.eq_of_testBit_eq
  intro j
  rw [Nat.testBit_and, Nat.testBit_two_pow, Nat.zero_testBit]
  by_cases hj : i = j
  · subst hj; simp [hb]
  · simp [hj]

theorem or_shift_marker (x y : Nat) (h14 : y.testBit 14 = true) :
    x ||| ((y &&& ((2 ^ 13 - 1) ||| 2 ^ 14)) <<< 16)
      = (x ||| ((y &&& (2 ^ 13 - 1)) <<< 16)) ||| 2 ^ 30 := by
  apply Nat.eq_of_testBit_eq
  intro i
  simp only [Nat.testBit_or, Nat.testBit_and, Nat.testBit_shiftLeft,
    Nat.testBit_two_pow_sub_one, Nat.testBit_two_pow]
  by_cases h16 : i ≥ 16
  · by_cases h30 : i = 30
    · subst h30; simp [h14]
    · have e1 : ¬ (14 = i - 16) := by omega
      have e2 : ¬ (30 = i) := by omega
      simp [h16, e1, e2]
  · have e2 : ¬ (30 = i) := by omega
    simp [h16, e2]

/-- C15, counterexample: a message object with `ARB1 = 0x5678` and
`ARB2 = 0xC123` (MsgVal, the extended marker `ID_MTD`, and identifier bits
0x0123).  `CAN_MessageProcess` stores the identifier `0x41235678`: bit 30 is
set, so the value is not below `2^29` and is not
`ARB1 | (ARB2 & 0x1FFF) << 16 = 0x01235678`. -/
theorem extended_id_keeps_marker :
    (0xC123 &&& ID_MTD ≠ 0) ∧
    ((CAN_MessageProcess cfg16 3
      { Driver_zero with
        LPC_CAN := { LPC_CAN_zero with
          msg_ram := fun _ => { MsgRam_zero with ARB1 := 0x5678, ARB2 := 0xC123 } } }).CAN_rxbuf
        3).id = 0x41235678 ∧
    ¬ (0x41235678 < 2 ^ 29) ∧
    (0x5678 ||| ((0xC123 &&& 0x1FFF) <<< 16)) = 0x01235678 := by
  refine ⟨by decide, by decide, by decide, by decide⟩

/-- C15, as amended: for a message object marked extended (`ID_MTD`, bit 14
of `ARB2`, set) whose `ARB1` is a 16-bit value, the identifier that
`CAN_MessageProcess` stores in the shadow buffer is the 29-bit value
`ARB1 | (ARB2 & 0x1FFF) << 16` plus `2^30`: the mask `0x5FFF` removes MsgVal
and Dir and keeps the extended marker, which lands in bit 30.  For a standard
frame the stored identifier is below `2^11`. -/
theorem CAN_MessageProcess_id (cfg : Config) (n : Nat) (s : Driver) :
    ((s.LPC_CAN.msg_ram (n + 1)).ARB2 &&& ID_MTD ≠ 0 →
      (s.LPC_CAN.msg_ram (n + 1)).ARB1 < 2 ^ 16 →
      ((CAN_MessageProcess cfg n s).CAN_rxbuf n).id
        = ((s.LPC_CAN.msg_ram (n + 1)).ARB1
            ||| (((s.LPC_CAN.msg_ram (n + 1)).ARB2 &&& 0x1FFF) <<< 16)) + 2 ^ 30 ∧
      ((s.LPC_CAN.msg_ram (n + 1)).ARB1
        ||| (((s.LPC_CAN.msg_ram (n + 1)).ARB2 &&& 0x1FFF) <<< 16)) < 2 ^ 29) ∧
    ((s.LPC_CAN.msg_ram (n + 1)).ARB2 &&& ID_MTD = 0 →
      ((CAN_MessageProcess cfg n s).CAN_rxbuf n).id < 2 ^ 11) := by
  have hid := (CAN_MessageProcess_entry cfg n s).2.1
  generalize (s.LPC_CAN.msg_ram (n + 1)).ARB1 = x at hid ⊢
  generalize (s.LPC_CAN.msg_ram (n + 1)).ARB2 = y at hid ⊢
  constructor
  · intro hm hx
    rw [hid, if_pos hm]
    have h14 : y.testBit 14 = true := testBit_of_and_two_pow_ne_zero y 14 hm
    have hlow : y &&& 0x1FFF < 2 ^ 13 := Nat.and_lt_two_pow y (by decide)
    have hsh : (y &&& 0x1FFF) <<< 16 < 2 ^ 29 := Nat.shiftLeft_lt hlow
    have hx29 : x < 2 ^ 29 := lt_of_lt_of_le hx (by decide)
    have hident : x ||| ((y &&& 0x1FFF) <<< 16) < 2 ^ 29 := Nat.or_lt_two_pow hx29 hsh
    have hor : x ||| ((y &&& 0x5FFF) <<< 16)
        = (x ||| ((y &&& 0x1FFF) <<< 16)) ||| 2 ^ 30 := or_shift_marker x y h14
    have hadd : (x ||| ((y &&& 0x1FFF) <<< 16)) ||| 2 ^ 30
        = (x ||| ((y &&& 0x1FFF) <<< 16)) + 2 ^ 30 := by
      have h30 : x ||| ((y &&& 0x1FFF) <<< 16) < 2 ^ 30 := lt_of_lt_of_le hident (by decide)
      have h := Nat.mul_add_lt_is_or h30 1
      rw [Nat.mul_one] at h
      rw [Nat.or_comm, ← h, Nat.add_comm]
    refine ⟨?_, hident⟩
    rw [hor, hadd]
    have hlt : (x ||| ((y &&& 0x1FFF) <<< 16)) + 2 ^ 30 < 2 ^ 32 := by
      have : (2 : Nat) ^ 29 + 2 ^ 30 < 2 ^ 32 := by decide
      omega
    exact Nat.mod_eq_of_lt hlt
  · intro hm
    rw [hid]
    simp only [hm, ne_eq, not_true_eq_false, if_false]
    have hlow : y &&& 0x1FFF < 2 ^ 13 := Nat.and_lt_two_pow y (by decide)
    rw [Nat.shiftRight_eq_div_pow]
    have h13 : (2 : Nat) ^ 13 = 8192 := by decide
    have h11 : (2 : Nat) ^ 11 = 2048 := by decide
    have h2 : (2 : Nat) ^ 2 = 4 := by decide
    rw [h13] at hlow
    rw [h11, h2]
    omega

theorem CAN_MessageProcess_id_witness :
    ((CAN_MessageProcess cfg16 3
      { Driver_zero with
        LPC_CAN := { LPC_CAN_zero with
          msg_ram := fun _ => { MsgRam_zero with ARB1 := 0x5678, ARB2 := 0xC123 } } }).CAN_rxbuf
        3).id = (0x5678 ||| ((0xC123 &&& 0x1FFF) <<< 16)) + 2 ^ 30 :=
  ((CAN_MessageProcess_id cfg16 3
    { Driver_zero with
      LPC_CAN := { LPC_CAN_zero with
        msg_ram := fun _ => { MsgRam_zero with ARB1 := 0x5678, ARB2 := 0xC123 } } }).1
    (by decide) (by decide)).1

/-! ## The ring buffer under direct calls: C16, C20 -/

theorem queue_keys_length (cfg : Config) (s : Driver) :
    (queue_keys cfg s).length = s.tx_num_msgs := by
  simp [queue_keys]

theorem obs_keys_length (o : Option Obs) :
    (queued_keys o.toList).length + (drained_keys o.toList).length ≤ 1 := by
  cases o with
  | none => simp [Option.toList, queued_keys, drained_keys]
  | some x => cases x <;> simp [Option.toList, queued_keys, drained_keys]

/-- A successful drain moves the head on by one modulo the capacity and
lowers the count by one. -/
theorem send_queued_messages_advance (cfg : Config) (k : Nat) (hk : k ≤ 7)
    (hsize : cfg.CAN_TX_BUFFER_SIZE = 2 ^ k) (hmask : cfg.CAN_TX_BUFFER_MASK = 2 ^ k - 1)
    (s : Driver) (hcount : s.tx_num_msgs ≤ cfg.CAN_TX_BUFFER_SIZE)
    (hok : (send_queued_messages cfg s).1 = Err.NO_ERR) :
    (send_queued_messages cfg s).2.tx_buf_start
      = (s.tx_buf_start + 1) % cfg.CAN_TX_BUFFER_SIZE ∧
    (send_queued_messages cfg s).2.tx_num_msgs + 1 = s.tx_num_msgs ∧
    (send_queued_messages cfg s).2.CAN_txbuf = s.CAN_txbuf := by
  have h128 : (2 : Nat) ^ k ≤ 128 := by
    calc (2 : Nat) ^ k ≤ 2 ^ 7 := Nat.pow_le_pow_right (by decide) hk
      _ = 128 := by decide
  have hpos : 0 < (2 : Nat) ^ k := Nat.two_pow_pos k
  rcases send_queued_messages_cases cfg s with h | ⟨hne, j, h⟩
  · rw [h] at hok; cases hok
  · rw [h]
    refine ⟨?_, ?_, rfl⟩
    · show ((s.tx_buf_start + 1) &&& cfg.CAN_TX_BUFFER_MASK) % 256
        = (s.tx_buf_start + 1) % cfg.CAN_TX_BUFFER_SIZE
      rw [hsize, hmask, Nat.and_pow_two_sub_one_eq_mod]
      have := Nat.mod_lt (s.tx_buf_start + 1) hpos
      omega
    · show (s.tx_num_msgs + 255) % 256 + 1 = s.tx_num_msgs
      rw [hsize] at hcount
      omega

/-- One call keeps `tx_buf_start < CAN_TX_BUFFER_SIZE` and
`tx_num_msgs ≤ CAN_TX_BUFFER_SIZE`, and changes the queue contents as the
observation of the call says. -/
theorem Call_step_keys (cfg : Config) (k : Nat) (hk : k ≤ 7)
    (hsize : cfg.CAN_TX_BUFFER_SIZE = 2 ^ k) (hmask : cfg.CAN_TX_BUFFER_MASK = 2 ^ k - 1)
    (c : Call) (s : Driver) (hstart : s.tx_buf_start < cfg.CAN_TX_BUFFER_SIZE)
    (hcount : s.tx_num_msgs ≤ cfg.CAN_TX_BUFFER_SIZE) :
    (c.step cfg s).tx_buf_start < cfg.CAN_TX_BUFFER_SIZE ∧
    (c.step cfg s).tx_num_msgs ≤ cfg.CAN_TX_BUFFER_SIZE ∧
    queue_keys cfg s ++ queued_keys (c.observe cfg s).toList
      = drained_keys (c.observe cfg s).toList ++ queue_keys cfg (c.step cfg s) := by
  have hpos : 0 < (2 : Nat) ^ k := Nat.two_pow_pos k
  cases c with
  | enqueue msg =>
    by_cases hfull : s.tx_num_msgs ≥ cfg.CAN_TX_BUFFER_SIZE
    · have hres : enqueue_message cfg msg s = (Err.BUF_FULL_ERR, s) := by
        simp [enqueue_message, hfull]
      simp only [Call.step, Call.observe, hres, Option.toList, queued_keys, drained_keys,
        List.append_nil, List.nil_append]
      exact ⟨hstart, hcount, by simp [queued_keys]⟩
    · obtain ⟨e1, e2, e3, -, e5⟩ := enqueue_message_keys cfg k hk hsize hmask msg s
        (by omega)
      simp only [Call.step, Call.observe, e1, e2, e3, e5, if_true, Option.toList, queued_keys,
        drained_keys, List.nil_append]
      exact ⟨hstart, by omega, trivial⟩
  | drain =>
    rcases send_queued_messages_cases cfg s with h | ⟨hne, j, h⟩
    · simp only [Call.step, Call.observe, h, Option.toList, queued_keys, drained_keys,
        List.append_nil, List.nil_append]
      exact ⟨hstart, hcount, by simp [queued_keys, drained_keys]⟩
    · have hd := drain_keys cfg k hk hsize hmask s
        (CAN_Send_slot cfg (s.CAN_txbuf s.tx_buf_start) j s.LPC_CAN) hstart hcount hne
      have hadv := send_queued_messages_advance cfg k hk hsize hmask s hcount (by rw [h])
      rw [h] at hadv
      simp only [Call.step, Call.observe, h, if_true, Option.toList, queued_keys,
        drained_keys, List.append_nil, List.nil_append, List.singleton_append]
      obtain ⟨a1, a2, -⟩ := hadv
      simp only at a1 a2
      refine ⟨?_, ?_, hd⟩
      · rw [a1, hsize]; exact Nat.mod_lt _ hpos
      · omega
  | ev e => exact step_keys cfg k hk hsize hmask e s hstart hcount

theorem Call_trace_keys (cfg : Config) (k : Nat) (hk : k ≤ 7)
    (hsize : cfg.CAN_TX_BUFFER_SIZE = 2 ^ k) (hmask : cfg.CAN_TX_BUFFER_MASK = 2 ^ k - 1)
    (calls : List Call) (s : Driver) (hstart : s.tx_buf_start < cfg.CAN_TX_BUFFER_SIZE)
    (hcount : s.tx_num_msgs ≤ cfg.CAN_TX_BUFFER_SIZE) :
    (Call.run cfg calls s).tx_buf_start < cfg.CAN_TX_BUFFER_SIZE ∧
    (Call.run cfg calls s).tx_num_msgs ≤ cfg.CAN_TX_BUFFER_SIZE ∧
    queue_keys cfg s ++ queued_keys (Call.trace cfg calls s)
      = drained_keys (Call.trace cfg calls s) ++ queue_keys cfg (Call.run cfg calls s) := by
  induction calls generalizing s with
  | nil => simp [Call.trace, Call.run, queued_keys, drained_keys, hstart, hcount]
  | cons c cs ih =>
    obtain ⟨h1, h2, h3⟩ := Call_step_keys cfg k hk hsize hmask c s hstart hcount
    obtain ⟨i1, i2, i3⟩ := ih (c.step cfg s) h1 h2
    refine ⟨i1, i2, ?_⟩
    rw [Call.trace, Call.run, queued_keys_append, drained_keys_append, ← List.append_assoc, h3,
      List.append_assoc, i3, List.append_assoc]

/-- One call changes `tx_num_msgs` by at most one, up or down. -/
theorem Call_step_count (cfg : Config) (k : Nat) (hk : k ≤ 7)
    (hsize : cfg.CAN_TX_BUFFER_SIZE = 2 ^ k) (hmask : cfg.CAN_TX_BUFFER_MASK = 2 ^ k - 1)
    (c : Call) (s : Driver) (hstart : s.tx_buf_start < cfg.CAN_TX_BUFFER_SIZE)
    (hcount : s.tx_num_msgs ≤ cfg.CAN_TX_BUFFER_SIZE) :
    (c.step cfg s).tx_num_msgs ≤ s.tx_num_msgs + 1 ∧
    s.tx_num_msgs ≤ (c.step cfg s).tx_num_msgs + 1 := by
  obtain ⟨-, -, h3⟩ := Call_step_keys cfg k hk hsize hmask c s hstart hcount
  have hlen := congrArg List.length h3
  simp only [List.length_append, queue_keys_length] at hlen
  have hobs := obs_keys_length (c.observe cfg s)
  omega

/-- C16: with `CAN_TX_BUFFER_SIZE` a power of two not above 128 and
`CAN_TX_BUFFER_MASK = CAN_TX_BUFFER_SIZE - 1`, every state reached from the
empty queue (`tx_buf_start = 0`, `tx_num_msgs = 0`) by any sequence of
`enqueue_message`, `send_queued_messages`, `can_send_msg` and `can_poll`
calls and register changes by the controller has
`tx_num_msgs ≤ CAN_TX_BUFFER_SIZE` and `tx_buf_start < CAN_TX_BUFFER_SIZE`;
and any further call changes `tx_num_msgs` by at most one, so the `u08`
counter never wraps from 0 to 255. -/
theorem queue_bounds_invariant (cfg : Config) (k : Nat) (hk : k ≤ 7)
    (hsize : cfg.CAN_TX_BUFFER_SIZE = 2 ^ k) (hmask : cfg.CAN_TX_BUFFER_MASK = 2 ^ k - 1)
    (s0 : Driver) (hstart : s0.tx_buf_start = 0) (hempty : s0.tx_num_msgs = 0)
    (calls : List Call) :
    (Call.run cfg calls s0).tx_num_msgs ≤ cfg.CAN_TX_BUFFER_SIZE ∧
    (Call.run cfg calls s0).tx_buf_start < cfg.CAN_TX_BUFFER_SIZE ∧
    ∀ c : Call,
      (c.step cfg (Call.run cfg calls s0)).tx_num_msgs
        ≤ (Call.run cfg calls s0).tx_num_msgs + 1 ∧
      (Call.run cfg calls s0).tx_num_msgs
        ≤ (c.step cfg (Call.run cfg calls s0)).tx_num_msgs + 1 := by
  have hpos : 0 < (2 : Nat) ^ k := Nat.two_pow_pos k
  obtain ⟨h1, h2, -⟩ := Call_trace_keys cfg k hk hsize hmask calls s0
    (by rw [hstart, hsize]; exact hpos) (by omega)
  exact ⟨h2, h1, fun c => Call_step_count cfg k hk hsize hmask c _ h1 h2⟩

theorem queue_bounds_invariant_witness :
    (Call.run cfg16 mixed_calls Driver_zero).tx_num_msgs ≤ cfg16.CAN_TX_BUFFER_SIZE :=
  (queue_bounds_invariant cfg16 4 (by decide) rfl rfl Driver_zero rfl rfl mixed_calls).1

/-- The position `enqueue_message` writes is none of the positions that hold
an entry of the queue, and no other position is written. -/
theorem enqueue_message_position (cfg : Config) (k : Nat) (hk : k ≤ 7)
    (hsize : cfg.CAN_TX_BUFFER_SIZE = 2 ^ k) (hmask : cfg.CAN_TX_BUFFER_MASK = 2 ^ k - 1)
    (msg : can_msg) (s : Driver) (hroom : s.tx_num_msgs < cfg.CAN_TX_BUFFER_SIZE) :
    (∀ j, j < s.tx_num_msgs →
      (s.tx_buf_start + j) % cfg.CAN_TX_BUFFER_SIZE
        ≠ (s.tx_buf_start + s.tx_num_msgs) % cfg.CAN_TX_BUFFER_SIZE) ∧
    (∀ p, p ≠ (s.tx_buf_start + s.tx_num_msgs) % cfg.CAN_TX_BUFFER_SIZE →
      (enqueue_message cfg msg s).2.CAN_txbuf p = s.CAN_txbuf p) := by
  have h128 : (2 : Nat) ^ k ≤ 128 := by
    calc (2 : Nat) ^ k ≤ 2 ^ 7 := Nat.pow_le_pow_right (by decide) hk
      _ = 128 := by decide
  have hpos : 0 < (2 : Nat) ^ k := Nat.two_pow_pos k
  have hnf : ¬ s.tx_num_msgs ≥ cfg.CAN_TX_BUFFER_SIZE := by omega
  rw [hsize] at hroom ⊢
  have hmod : ((s.tx_buf_start + s.tx_num_msgs) &&& cfg.CAN_TX_BUFFER_MASK) % 256
      = (s.tx_buf_start + s.tx_num_msgs) % 2 ^ k := by
    rw [hmask, Nat.and_pow_two_sub_one_eq_mod]
    have := Nat.mod_lt (s.tx_buf_start + s.tx_num_msgs) hpos
    omega
  constructor
  · intro j hj heq
    have h1 : j % 2 ^ k = s.tx_num_msgs % 2 ^ k := Nat.ModEq.add_left_cancel' s.tx_buf_start heq
    rw [Nat.mod_eq_of_lt (by omega), Nat.mod_eq_of_lt hroom] at h1
    omega
  · intro p hp
    simp [enqueue_message, hnf, hmod, Function.update_apply, hp]

set_option maxRecDepth 200000 in
/-- C20, counterexample: with a capacity of 256 (a power of two, mask 255)
the `u08` counter `tx_num_msgs` can never reach the capacity.  From the
empty queue 256 calls of `enqueue_message` all return `NO_ERR` and leave
`tx_num_msgs = 0`; the next call stores frame 0x999 at position 0, over the
first frame 0x300, which was never drained; the first successful drain hands
frame 0x999 to `CAN_Send`, not the first enqueued frame. -/
theorem ring_buffer_wraps_at_256 :
    (queued_keys (Call.trace cfg256 wrap_calls Driver_zero)).length = 257 ∧
    ((queued_keys (Call.trace cfg256 wrap_calls Driver_zero)).map (fun x => x.1)).head?
      = some 0x300 ∧
    (drained_keys (Call.trace cfg256 wrap_calls Driver_zero)).map (fun x => x.1) = [0x999] ∧
    (Call.run cfg256 (enqueue_burst 256) Driver_zero).tx_num_msgs = 0 := by
  refine ⟨by decide, by decide, by decide, by decide⟩

/-- C20, as amended: with a capacity that is a power of two not above 128
and mask = capacity - 1, for every sequence of `enqueue_message` and
`send_queued_messages` calls (`can_send_msg`, `can_poll` and register changes
by the controller may be mixed in) starting from the empty queue: the frames
handed to `CAN_Send` by the successful drains are, in identifier, eight
payload bytes and length, the first of the successfully enqueued frames in
the same order, so that the k-th drain hands over the k-th enqueued frame;
in every state reached, a successful drain advances `tx_buf_start` by one
modulo the capacity and lowers `tx_num_msgs` by one, and a successful
`enqueue_message` writes a position that holds no entry of the queue and no
other position. -/
theorem ring_buffer_fifo (cfg : Config) (k : Nat) (hk : k ≤ 7)
    (hsize : cfg.CAN_TX_BUFFER_SIZE = 2 ^ k) (hmask : cfg.CAN_TX_BUFFER_MASK = 2 ^ k - 1)
    (s0 : Driver) (hempty : s0.tx_num_msgs = 0)
    (hstart : s0.tx_buf_start < cfg.CAN_TX_BUFFER_SIZE) (calls : List Call) :
    drained_keys (Call.trace cfg calls s0) <+: queued_keys (Call.trace cfg calls s0) ∧
    ((send_queued_messages cfg (Call.run cfg calls s0)).1 = Err.NO_ERR →
      (send_queued_messages cfg (Call.run cfg calls s0)).2.tx_buf_start
        = ((Call.run cfg calls s0).tx_buf_start + 1) % cfg.CAN_TX_BUFFER_SIZE ∧
      (send_queued_messages cfg (Call.run cfg calls s0)).2.tx_num_msgs + 1
        = (Call.run cfg calls s0).tx_num_msgs) ∧
    (∀ msg : can_msg, (enqueue_message cfg msg (Call.run cfg calls s0)).1 = Err.NO_ERR →
      (∀ j, j < (Call.run cfg calls s0).tx_num_msgs →
        ((Call.run cfg calls s0).tx_buf_start + j) % cfg.CAN_TX_BUFFER_SIZE
          ≠ ((Call.run cfg calls s0).tx_buf_start + (Call.run cfg calls s0).tx_num_msgs)
              % cfg.CAN_TX_BUFFER_SIZE) ∧
      (∀ p, p ≠ ((Call.run cfg calls s0).tx_buf_start + (Call.run cfg calls s0).tx_num_msgs)
              % cfg.CAN_TX_BUFFER_SIZE →
        (enqueue_message cfg msg (Call.run cfg calls s0)).2.CAN_txbuf p
          = (Call.run cfg calls s0).CAN_txbuf p)) := by
  obtain ⟨h1, h2, h3⟩ := Call_trace_keys cfg k hk hsize hmask calls s0 hstart (by omega)
  have h0 : queue_keys cfg s0 = [] := by simp [queue_keys, hempty]
  rw [h0, List.nil_append] at h3
  refine ⟨⟨_, h3.symm⟩, ?_, ?_⟩
  · intro hok
    have hadv := send_queued_messages_advance cfg k hk hsize hmask _ h2 hok
    exact ⟨hadv.1, hadv.2.1⟩
  · intro msg hok
    have hroom : (Call.run cfg calls s0).tx_num_msgs < cfg.CAN_TX_BUFFER_SIZE := by
      by_contra hfull
      have hres : enqueue_message cfg msg (Call.run cfg calls s0)
          = (Err.BUF_FULL_ERR, Call.run cfg calls s0) := by
        simp [enqueue_message, Nat.le_of_not_lt hfull]
      rw [hres] at hok
      cases hok
    exact enqueue_message_position cfg k hk hsize hmask msg _ hroom

theorem ring_buffer_fifo_witness :
    drained_keys (Call.trace cfg16 mixed_calls Driver_zero)
      <+: queued_keys (Call.trace cfg16 mixed_calls Driver_zero) :=
  (ring_buffer_fifo cfg16 4 (by decide) rfl rfl Driver_zero rfl (by decide)
    mixed_calls).1

/-! ## The length of a received frame: C21 -/

theorem can_get_msg_loop_cases (msg : can_msg) (n i : Nat) (s : Driver) :
    can_get_msg_loop msg n i s = (Err.NO_MSG_ERR, msg, s) ∨
    ∃ j, can_get_msg_loop msg n i s
      = (Err.NO_ERR, (CAN_decode_packet j msg s).1, (CAN_decode_packet j msg s).2) := by
  induction n generalizing i with
  | zero => exact Or.inl rfl
  | succ m ih =>
    rw [can_get_msg_loop]
    by_cases hf : s.CANRxDone i = TRUE
    · exact Or.inr ⟨i, by simp [hf]⟩
    · simp only [hf, if_false]
      exact ih (i + 1)

/-- C21: the frame that `CAN_decode_packet` produces has
`length = CAN_MSG_MAXSIZE = 8` for every content of the shadow slot; putting
any other value into the `dlc` word of the slot changes nothing in the frame
produced; the same holds right after `CAN_MessageProcess` has stored the
data-length code of a message object, and for the frame `can_get_msg`
returns with `NO_ERR`. -/
theorem received_length_is_8 (cfg : Config) (msg_num : Nat) (msg : can_msg) (s : Driver) :
    CAN_MSG_MAXSIZE = 8 ∧
    (CAN_decode_packet msg_num msg s).1.length = CAN_MSG_MAXSIZE ∧
    (∀ d : Nat,
      (CAN_decode_packet msg_num msg
        { s with
          CAN_rxbuf := Function.update s.CAN_rxbuf msg_num
            { s.CAN_rxbuf msg_num with dlc := d } }).1
        = (CAN_decode_packet msg_num msg s).1) ∧
    ((CAN_MessageProcess cfg msg_num s).CAN_rxbuf msg_num).dlc
      = (s.LPC_CAN.msg_ram (msg_num + 1)).MCTRL &&& 0x000F ∧
    (CAN_decode_packet msg_num msg (CAN_MessageProcess cfg msg_num s)).1.length
      = CAN_MSG_MAXSIZE ∧
    ((can_get_msg msg s).1 = Err.NO_ERR → (can_get_msg msg s).2.1.length = CAN_MSG_MAXSIZE) := by
  refine ⟨rfl, rfl, ?_, (CAN_MessageProcess_entry cfg msg_num s).2.2.1, rfl, ?_⟩
  · intro d
    simp [CAN_decode_packet]
  · intro hok
    unfold can_get_msg at hok ⊢
    rcases can_get_msg_loop_cases msg MSG_OBJ_MAX 0 s with h | ⟨j, h⟩
    · rw [h] at hok; cases hok
    · rw [h]; rfl

theorem received_length_is_8_witness :
    (can_get_msg (frame 0 0 0)
      { Driver_zero with
        CANRxDone := fun i => if i = 4 then 1 else 0
        CAN_rxbuf := fun _ => { ext := 0, id := 0x21, dlc := 3, data := fun _ => 0x1110 } }).2.1.length
      = CAN_MSG_MAXSIZE :=
  (received_length_is_8 cfg16 4 (frame 0 0 0)
    { Driver_zero with
      CANRxDone := fun i => if i = 4 then 1 else 0
      CAN_rxbuf := fun _ => { ext := 0, id := 0x21, dlc := 3, data := fun _ => 0x1110 } }).2.2.2.2.2
    (by decide)

/-! ## The data-length code of a transmitted frame: C22 -/

theorem CAN_Send_loop_length (cfg : Config) (msg : can_msg) (l n i : Nat)
    (c : LPC_CAN_TypeDef) :
    CAN_Send_loop cfg { msg with length := l } n i c = CAN_Send_loop cfg msg n i c := by
  induction n generalizing i with
  | zero => rfl
  | succ m ih =>
    rw [CAN_Send_loop, CAN_Send_loop, ih (i + 1)]
    rfl

theorem CAN_Send_slot_MCTRL (cfg : Config) (msg : can_msg) (i : Nat) (c : LPC_CAN_TypeDef) :
    (CAN_Send_slot cfg msg i c).IF1_MCTRL = UMSK ||| TXRQ ||| EOB ||| 8 := by
  have h : (8 : Nat) &&& 15 = 8 := by decide
  simp [CAN_Send_slot, IF1_wait_eq, write_IF1_CMDREQ, DLC_MASK, h]

/-- C22: `CAN_Send` gives the same return value and leaves the same
controller state, the record of transfer requests included, for two frames
that differ only in `length`; and when it finds a free slot, `IF1_MCTRL`
holds `UMSK | TXRQ | EOB | 8`, a data-length code of 8. -/
theorem CAN_Send_dlc_is_8 (cfg : Config) (Pri : Nat) (msg : can_msg) (c : LPC_CAN_TypeDef) :
    (∀ l : Nat, CAN_Send cfg Pri { msg with length := l } c = CAN_Send cfg Pri msg c) ∧
    ((CAN_Send cfg Pri msg c).1 = Err.NO_ERR →
      (CAN_Send cfg Pri msg c).2.IF1_MCTRL = UMSK ||| TXRQ ||| EOB ||| 8 ∧
      (CAN_Send cfg Pri msg c).2.IF1_MCTRL &&& DLC_MASK = 8) := by
  constructor
  · intro l
    exact CAN_Send_loop_length cfg msg l _ _ c
  · intro hsent
    obtain ⟨j, -, -, -, -, hj⟩ := CAN_Send_loop_ok cfg msg _ _ c hsent
    have hj2 : (CAN_Send cfg Pri msg c).2 = CAN_Send_slot cfg msg j c := by
      unfold CAN_Send; rw [hj]
    rw [hj2, CAN_Send_slot_MCTRL]
    exact ⟨rfl, by decide⟩

theorem CAN_Send_dlc_is_8_witness :
    (CAN_Send cfg16 0 { frame 5 1 0x10 with length := 2 } LPC_CAN_zero).2.IF1_MCTRL
      &&& DLC_MASK = 8 :=
  ((CAN_Send_dlc_is_8 cfg16 0 { frame 5 1 0x10 with length := 2 } LPC_CAN_zero).2
    (by decide)).2

end Scandal
